import Mathlib

/-!
# OpenKF: account provisioning and login (`server/internal/service/user.go`)

A shallow embedding of `UserService.CreateAdmin`, `UserService.CreateStaff`,
`registerUserToOpenIM`, `UserService.LoginWithAccount` and `getUserIMToken`.

The service functions are translated statement by statement.  Their
collaborators (the user DAO, the mail and community services, the UUID and
password helpers, the JWT helper and the OpenIM SDK) live in packages whose
code is not part of the sources at hand; they are modelled from the
interfaces of the specification, and every one of them may report an error.
State is passed explicitly: a `World` holds the credential store, the
communities, the identities known to the remote service and a trace of every
collaborator call made so far.
-/

namespace OpenKF

/-! ## Data model -/

/-- Go's `error`: `none` is `nil`, `some msg` is an error with message `msg`. -/
abbrev Error := Option String

/-- Go struct `base.UserBase`, the fields the service fills in. -/
structure UserBase where
  UUID : String
  Email : String
  Nickname : String
  Avatar : String
  IsEnable : Bool
deriving DecidableEq

/-- Go struct `systemroles.SysUser`: a row of the credential store. `Id` is the numeric
id the store assigns. -/
structure SysUser where
  Id : Nat
  UserBase : UserBase
  IsAdmin : Bool
  Password : String
  CommunityId : Nat
deriving DecidableEq

/-- Go's zero value of `SysUser`. -/
def SysUser.zero : SysUser :=
  { Id := 0,
    UserBase := { UUID := "", Email := "", Nickname := "", Avatar := "", IsEnable := false },
    IsAdmin := false, Password := "", CommunityId := 0 }

/-- The `UserInfo` part of a registration request. `Avatar` is a `*string` in
the source (it is dereferenced with `*`), so it may be nil. -/
structure UserInfo where
  Email : String
  Nickname : String
  Password : String
  Avatar : Option String
deriving DecidableEq

/-- The community descriptor of an admin registration; its fields are not
inspected by the service, it is handed to the community service as is. -/
structure CommunityInfo where
  Name : String
deriving DecidableEq

/-- Go struct `requestparams.RegisterAdminParams`. -/
structure RegisterAdminParams where
  Code : String
  CommunityInfo : CommunityInfo
  UserInfo : UserInfo
deriving DecidableEq

/-- Go struct `requestparams.RegisterStaffParams`. -/
structure RegisterStaffParams where
  CommunityId : Nat
  UserInfo : UserInfo
deriving DecidableEq

/-- Go struct `requestparams.LoginParamsWithAccount`. -/
structure LoginParamsWithAccount where
  Email : String
  Password : String
deriving DecidableEq

/-- Go struct `request.User` of the OpenIM SDK. -/
structure User where
  UserID : String
  Nickname : String
  FaceURL : String
deriving DecidableEq

/-- Go struct `request.RegisterUserParams` of the OpenIM SDK. -/
structure RegisterUserParams where
  Secret : String
  Users : List User
deriving DecidableEq

/-- The response of `user.RegisterUser`: application code and message. -/
structure RegisterUserResp where
  ErrCode : Int
  ErrMsg : String
deriving DecidableEq

/-- Go struct `request.UserTokenParams` of the OpenIM SDK. -/
structure UserTokenParams where
  Secret : String
  UserID : String
  PlatformID : Nat
deriving DecidableEq

/-- Go struct `response.TokenData` of the OpenIM SDK. -/
structure TokenData where
  Token : String
  ExpireTimeSeconds : Int
deriving DecidableEq

/-- Go's zero value `response.TokenData{}`. -/
def TokenData.zero : TokenData := { Token := "", ExpireTimeSeconds := 0 }

/-- The response of `auth.GetUserToken`. -/
structure UserTokenResp where
  ErrCode : Int
  ErrMsg : String
  Data : TokenData
deriving DecidableEq

/-- Go struct `responseparams.TokenResponse`. -/
structure TokenResponse where
  Token : String
  ExpireTimeSeconds : Int
deriving DecidableEq

/-- Go struct `responseparams.UserTokenResponse`; the two token fields are pointers,
nil until they are filled in. -/
structure UserTokenResponse where
  UUID : String
  KFToken : Option TokenResponse
  IMToken : Option TokenResponse
deriving DecidableEq

/-- Go's zero value `responseparams.UserTokenResponse{}`. -/
def UserTokenResponse.zero : UserTokenResponse :=
  { UUID := "", KFToken := none, IMToken := none }

/-- The `config.Config.OpenIM` values the service reads. -/
structure OpenIMConfig where
  Secret : String
  Ip : String
  ApiPort : Int
  PlatformID : Int
deriving DecidableEq

/-- How a call ends: it returns a value, or it panics (a nil pointer is
dereferenced). -/
inductive Outcome (α : Type) where
  | returned (a : α)
  | panicked
deriving DecidableEq

/-- One collaborator call, with what it was given and what it answered. -/
inductive Event where
  | checkCode (email code : String) (ok : Bool)
  | createCommunity (param : CommunityInfo) (cid : Nat) (err : Error)
  | daoCreate (row : SysUser) (err : Error)
  | daoFindByUUID (uuid : String) (found : SysUser) (err : Error)
  | daoFindByEmail (email : String) (found : SysUser) (err : Error)
  | daoDelete (row : SysUser) (err : Error)
  | registerUser (param : RegisterUserParams) (host : String)
      (resp : RegisterUserResp) (err : Error)
  | generateJwt (uuid : String) (communityId : Nat) (token : String)
      (expire : Int) (err : Error)
  | getUserToken (param : UserTokenParams) (host : String)
      (resp : UserTokenResp) (err : Error)
deriving DecidableEq

/-- The state the workflows act on. -/
structure World where
  -- rows of the credential store, oldest first
  users : List SysUser
  -- the numeric id the store gives to the next row
  nextId : Nat
  -- the communities created so far, with their ids
  communities : List (Nat × CommunityInfo)
  -- the identifiers registered with the remote identity service
  imUsers : List String
  -- all collaborator calls so far, oldest first
  trace : List Event

/-- The answers of the collaborators during one call of a workflow. -/
structure Env where
  Config : OpenIMConfig
  checkCode : String → String → Bool
  createCommunity : CommunityInfo → String × Nat × Error
  genUUID : String
  encryptPassword : String → String
  comparePassword : String → String → Bool
  createFault : Error
  findByUUIDFault : Error
  findByEmailFault : Error
  deleteFault : Error
  registerUser : RegisterUserParams → String → RegisterUserResp × Error
  generateJwtToken : String → Nat → String × Int × Error
  getUserToken : UserTokenParams → String → UserTokenResp × Error

/-- Appends one event to the trace. -/
def World.log (w : World) (e : Event) : World :=
  { w with trace := w.trace ++ [e] }

/-- The events recorded in `w2` since `w1`. -/
def World.since (w2 w1 : World) : List Event :=
  w2.trace.drop w1.trace.length

/-- A row with the unique identifier `uuid` is in the credential store. -/
def World.hasUser (w : World) (uuid : String) : Prop :=
  ∃ r ∈ w.users, r.UserBase.UUID = uuid

instance (w : World) (uuid : String) : Decidable (w.hasUser uuid) := by
  unfold World.hasUser; infer_instance

/-! ## Collaborators -/

/-- Modelled from the spec: the verification code checker
`Check(email, code) -> bool` (`MailService.CheckCode`, not in the sources). -/
def MailService.CheckCode (c : Env) (w : World) (email code : String) : Bool × World :=
  let ok := c.checkCode email code
  (ok, w.log (.checkCode email code ok))

/-- Modelled from the spec: the community creator
`Create(descriptor) -> (communityID, error)` (`CommunityService.Create`, not
in the sources; its first result is discarded by the caller). The community
exists afterwards exactly when no error is reported. -/
def CommunityService.Create (c : Env) (w : World) (param : CommunityInfo) :
    (String × Nat × Error) × World :=
  let r := c.createCommunity param
  let w1 := w.log (.createCommunity param r.2.1 r.2.2)
  match r.2.2 with
  | some _ => (r, w1)
  | none => (r, { w1 with communities := w1.communities ++ [(r.2.1, param)] })

/-- Modelled from the spec: the unique id generator `New()` (`utils.GenUUID`,
not in the sources), as the string `uuid.String()` gives. -/
def utils.GenUUID (c : Env) : String := c.genUUID

/-- Modelled from the spec: the password hasher `Hash(plaintext) -> hash`
(`utils.EncryptPassword`, not in the sources). -/
def utils.EncryptPassword (c : Env) (password : String) : String :=
  c.encryptPassword password

/-- Modelled from the spec: the password hasher `Compare(plaintext, hash) -> bool`
(`utils.ComparePassword`, not in the sources). -/
def utils.ComparePassword (c : Env) (password hash : String) : Bool :=
  c.comparePassword password hash

/-- Modelled from the spec: the credential store's `Create(record) -> error`
(`SysUserDao.Create`, not in the sources). The store rejects the write when
it is faulty or when the email is taken; otherwise the row is added under the
next numeric id. -/
def SysUserDao.Create (c : Env) (w : World) (u : SysUser) : Error × World :=
  match c.createFault with
  | some e => (some e, w.log (.daoCreate u (some e)))
  | none =>
    if w.users.any (fun r => decide (r.UserBase.Email = u.UserBase.Email)) then
      (some "duplicate email", w.log (.daoCreate u (some "duplicate email")))
    else
      (none, { w with users := w.users ++ [{ u with Id := w.nextId }],
                      nextId := w.nextId + 1,
                      trace := w.trace ++ [.daoCreate u none] })

/-- Modelled from the spec: the credential store's
`FindByUniqueID(id) -> (record, error-if-absent)`, as a function of the rows:
the first row with the identifier, or the zero value and an error. -/
def SysUserDao.findByUUID (c : Env) (users : List SysUser) (uuid : String) :
    SysUser × Error :=
  match c.findByUUIDFault with
  | some e => (SysUser.zero, some e)
  | none =>
    match users.find? (fun r => decide (r.UserBase.UUID = uuid)) with
    | some u => (u, none)
    | none => (SysUser.zero, some "record not found")

/-- Modelled from the spec: the credential store's
`FindByUniqueID(id) -> (record, error-if-absent)` (`SysUserDao.FindFirstByUUID`,
not in the sources). -/
def SysUserDao.FindFirstByUUID (c : Env) (w : World) (uuid : String) :
    (SysUser × Error) × World :=
  let r := SysUserDao.findByUUID c w.users uuid
  (r, w.log (.daoFindByUUID uuid r.1 r.2))

/-- Modelled from the spec: the credential store's
`FindByEmail(email) -> (record, error-if-absent)`, as a function of the rows:
the first row with the email, or the zero value and an error. -/
def SysUserDao.findByEmail (c : Env) (users : List SysUser) (email : String) :
    SysUser × Error :=
  match c.findByEmailFault with
  | some e => (SysUser.zero, some e)
  | none =>
    match users.find? (fun r => decide (r.UserBase.Email = email)) with
    | some u => (u, none)
    | none => (SysUser.zero, some "record not found")

/-- Modelled from the spec: the credential store's
`FindByEmail(email) -> (record, error-if-absent)` (`SysUserDao.FindFirstByEmail`,
not in the sources). -/
def SysUserDao.FindFirstByEmail (c : Env) (w : World) (email : String) :
    (SysUser × Error) × World :=
  let r := SysUserDao.findByEmail c w.users email
  (r, w.log (.daoFindByEmail email r.1 r.2))

/-- Modelled from the spec: the credential store's `Delete(record) -> error`
(`SysUserDao.Delete`, not in the sources): delete by numeric id, and nothing
is deleted when an error is reported. -/
def SysUserDao.Delete (c : Env) (w : World) (u : SysUser) : Error × World :=
  match c.deleteFault with
  | some e => (some e, w.log (.daoDelete u (some e)))
  | none =>
    (none, { w with users := w.users.filter (fun r => decide (r.Id ≠ u.Id)),
                    trace := w.trace ++ [.daoDelete u none] })

/-- Modelled from the spec: the remote identity client's
`RegisterUser(secret, users) -> (applicationErrorCode, message, error)`
(`user.RegisterUser` of the OpenIM SDK, not in the sources). A remote
registration exists exactly after a call without a transport error and with
application code 0. -/
def user.RegisterUser (c : Env) (w : World) (param : RegisterUserParams) (host : String) :
    (RegisterUserResp × Error) × World :=
  let r := c.registerUser param host
  let w1 := w.log (.registerUser param host r.1 r.2)
  match r.2 with
  | some _ => (r, w1)
  | none =>
    if r.1.ErrCode = 0 then
      (r, { w1 with imUsers := w1.imUsers ++ param.Users.map (fun u => u.UserID) })
    else (r, w1)

/-- Modelled from the spec: the local token issuer
`Issue(userID, communityID) -> (token, expirySeconds, error)`
(`internal_utils.GenerateJwtToken`, not in the sources). -/
def internal_utils.GenerateJwtToken (c : Env) (w : World) (uuid : String) (communityId : Nat) :
    (String × Int × Error) × World :=
  let r := c.generateJwtToken uuid communityId
  (r, w.log (.generateJwt uuid communityId r.1 r.2.1 r.2.2))

/-- Modelled from the spec: the remote identity client's
`GetUserToken(secret, userID, platformID)`
(`auth.GetUserToken` of the OpenIM SDK, not in the sources). -/
def auth.GetUserToken (c : Env) (w : World) (param : UserTokenParams) (host : String) :
    (UserTokenResp × Error) × World :=
  let r := c.getUserToken param host
  (r, w.log (.getUserToken param host r.1 r.2))

/-! ## Standard library pieces -/

/-- Go's `net.JoinHostPort`: brackets around a host that contains a colon. -/
def net.JoinHostPort (host port : String) : String :=
  if host.data.contains ':' then "[" ++ host ++ "]:" ++ port
  else host ++ ":" ++ port

/-- Go's conversion `uint(x)` of a signed integer on a 64-bit platform. -/
def uint (x : Int) : Nat := (x % 2 ^ 64).toNat

/-- The host both remote calls build:
`fmt.Sprintf("http://%s", net.JoinHostPort(Ip, fmt.Sprintf("%d", ApiPort)))`. -/
def openIMHost (c : Env) : String :=
  "http://" ++ net.JoinHostPort c.Config.Ip (toString c.Config.ApiPort)

/-! ## The service (`user.go`) -/

/-- Source function `registerUserToOpenIM`: register user to openim. -/
def registerUserToOpenIM (c : Env) (w : World) (param : RegisterUserParams) :
    (Bool × Error) × World :=
  let host := openIMHost c
  let (r, w1) := user.RegisterUser c w param host
  match r.2 with
  | some err => ((false, some err), w1)
  | none =>
    if r.1.ErrCode ≠ 0 then ((false, some r.1.ErrMsg), w1)
    else ((true, none), w1)

/-- Source function `getUserIMToken`: get user im token. -/
def getUserIMToken (c : Env) (w : World) (param : UserTokenParams) :
    (TokenData × Error) × World :=
  let host := openIMHost c
  let (r, w1) := auth.GetUserToken c w param host
  match r.2 with
  | some err => ((TokenData.zero, some err), w1)
  | none =>
    if r.1.ErrCode ≠ 0 then ((TokenData.zero, some r.1.ErrMsg), w1)
    else ((r.1.Data, none), w1)

/-- Source function `UserService.CreateAdmin`: create admin user. -/
def CreateAdmin (c : Env) (w : World) (user : RegisterAdminParams) :
    Outcome (String × Nat × Error) × World :=
  -- Check code
  let (isExist, w1) := MailService.CheckCode c w user.UserInfo.Email user.Code
  if !isExist then
    (.returned ("", 0, some "code is not valid"), w1)
  else
    -- Create community
    let communityParam := user.CommunityInfo
    let (cr, w2) := CommunityService.Create c w1 communityParam
    match cr.2.2 with
    | some err => (.returned ("", 0, some err), w2)
    | none =>
      let cid := cr.2.1
      -- Create admin
      let uuid := utils.GenUUID c
      let adminParam := user.UserInfo
      match adminParam.Avatar with
      | none => (.panicked, w2)
      | some avatar =>
        let admin : SysUser :=
          { Id := 0,
            UserBase := { UUID := uuid, Email := adminParam.Email,
                          Nickname := adminParam.Nickname, Avatar := avatar,
                          IsEnable := true },
            IsAdmin := true,
            Password := utils.EncryptPassword c adminParam.Password,
            CommunityId := cid }
        match SysUserDao.Create c w2 admin with
        | (some err, w3) => (.returned (uuid, 0, some err), w3)
        | (none, w3) =>
          -- u, _ := svc.SysUserDao.FindFirstByUUID(uuid)
          let (f, w4) := SysUserDao.FindFirstByUUID c w3 uuid
          let u := f.1
          let param : RegisterUserParams :=
            { Secret := c.Config.Secret,
              Users := [{ UserID := uuid, Nickname := adminParam.Nickname, FaceURL := "" }] }
          let (r, w5) := registerUserToOpenIM c w4 param
          if r.2.isSome || !r.1 then
            -- _ = svc.SysUserDao.Delete(u)
            let (_, w6) := SysUserDao.Delete c w5 u
            (.returned (uuid, u.Id, r.2), w6)
          else
            (.returned (uuid, u.Id, none), w5)

/-- Source function `UserService.CreateStaff`: create staff user. -/
def CreateStaff (c : Env) (w : World) (user : RegisterStaffParams) :
    Outcome (String × Nat × Error) × World :=
  -- Create staff
  let uuid := utils.GenUUID c
  let staffParam := user.UserInfo
  match staffParam.Avatar with
  | none => (.panicked, w)
  | some avatar =>
    let staff : SysUser :=
      { Id := 0,
        UserBase := { UUID := uuid, Email := staffParam.Email,
                      Nickname := staffParam.Nickname, Avatar := avatar,
                      IsEnable := true },
        IsAdmin := false,
        Password := utils.EncryptPassword c staffParam.Password,
        CommunityId := user.CommunityId }
    match SysUserDao.Create c w staff with
    | (some err, w1) => (.returned (uuid, 0, some err), w1)
    | (none, w1) =>
      -- u, _ := svc.SysUserDao.FindFirstByUUID(uuid)
      let (f, w2) := SysUserDao.FindFirstByUUID c w1 uuid
      let u := f.1
      let param : RegisterUserParams :=
        { Secret := c.Config.Secret,
          Users := [{ UserID := uuid, Nickname := staffParam.Nickname, FaceURL := "" }] }
      let (r, w3) := registerUserToOpenIM c w2 param
      if r.2.isSome || !r.1 then
        -- _ = svc.SysUserDao.Delete(u)
        let (_, w4) := SysUserDao.Delete c w3 u
        (.returned (uuid, u.Id, r.2), w4)
      else
        (.returned (uuid, u.Id, none), w3)

/-- Source function `UserService.LoginWithAccount`: login with account. -/
def LoginWithAccount (c : Env) (w : World) (param : LoginParamsWithAccount) :
    (UserTokenResponse × Error) × World :=
  let resp := UserTokenResponse.zero
  -- Check user
  let (f, w1) := SysUserDao.FindFirstByEmail c w param.Email
  let u := f.1
  match f.2 with
  | some err => ((resp, some err), w1)
  | none =>
    -- Check password
    if !utils.ComparePassword c param.Password u.Password then
      ((resp, some "password is not correct"), w1)
    else
      -- Generate KF token
      let (j, w2) := internal_utils.GenerateJwtToken c w1 u.UserBase.UUID u.CommunityId
      match j.2.2 with
      | some err => ((resp, some err), w2)
      | none =>
        -- Get IM token
        let imParam : UserTokenParams :=
          { Secret := c.Config.Secret, UserID := u.UserBase.UUID,
            PlatformID := uint c.Config.PlatformID }
        let (t, w3) := getUserIMToken c w2 imParam
        match t.2 with
        | some err => ((resp, some err), w3)
        | none =>
          -- Fill response data
          (({ UUID := u.UserBase.UUID,
              KFToken := some { Token := j.1, ExpireTimeSeconds := j.2.1 },
              IMToken := some { Token := t.1.Token,
                                ExpireTimeSeconds := t.1.ExpireTimeSeconds } },
            none), w3)

/-! ## Names for the values the workflows build -/

/-- The row `CreateAdmin` hands to the store, for a request whose avatar
pointer holds `avatar` and a community created under the id `cid`. -/
def adminRow (c : Env) (user : RegisterAdminParams) (avatar : String) (cid : Nat) : SysUser :=
  { Id := 0,
    UserBase := { UUID := utils.GenUUID c, Email := user.UserInfo.Email,
                  Nickname := user.UserInfo.Nickname, Avatar := avatar,
                  IsEnable := true },
    IsAdmin := true,
    Password := utils.EncryptPassword c user.UserInfo.Password,
    CommunityId := cid }

/-- The row `CreateStaff` hands to the store, for a request whose avatar
pointer holds `avatar`. -/
def staffRow (c : Env) (user : RegisterStaffParams) (avatar : String) : SysUser :=
  { Id := 0,
    UserBase := { UUID := utils.GenUUID c, Email := user.UserInfo.Email,
                  Nickname := user.UserInfo.Nickname, Avatar := avatar,
                  IsEnable := true },
    IsAdmin := false,
    Password := utils.EncryptPassword c user.UserInfo.Password,
    CommunityId := user.CommunityId }

/-- The parameters of the remote registration call both workflows build. -/
def registerParam (c : Env) (uuid nickname : String) : RegisterUserParams :=
  { Secret := c.Config.Secret,
    Users := [{ UserID := uuid, Nickname := nickname, FaceURL := "" }] }

/-- The row as the store keeps it: under the next numeric id. -/
def World.stored (w : World) (row : SysUser) : SysUser :=
  { row with Id := w.nextId }

/-- The lines `CreateAdmin` and `CreateStaff` have in common, from the store
create on: create, re-read, remote registration, compensating delete. The
source has them twice; `CreateAdmin_eq` and `CreateStaff_eq` show that both
functions run exactly these. -/
def createAndRegister (c : Env) (w : World) (uuid : String) (row : SysUser)
    (nickname : String) : Outcome (String × Nat × Error) × World :=
  match SysUserDao.Create c w row with
  | (some err, w1) => (.returned (uuid, 0, some err), w1)
  | (none, w1) =>
    let (f, w2) := SysUserDao.FindFirstByUUID c w1 uuid
    let u := f.1
    let (r, w3) := registerUserToOpenIM c w2 (registerParam c uuid nickname)
    if r.2.isSome || !r.1 then
      let (_, w4) := SysUserDao.Delete c w3 u
      (.returned (uuid, u.Id, r.2), w4)
    else
      (.returned (uuid, u.Id, none), w3)

/-- The world `CreateAdmin` reaches once the code is checked and the community
is created under the id `cid`. -/
def World.afterCommunity (w : World) (user : RegisterAdminParams) (cid : Nat) : World :=
  { w with communities := w.communities ++ [(cid, user.CommunityInfo)],
           trace := w.trace ++ [.checkCode user.UserInfo.Email user.Code true,
                                .createCommunity user.CommunityInfo cid none] }

/-- The error `registerUserToOpenIM` makes of an answer of the remote service:
the transport error, or the message of a non-zero application code. -/
def remoteError (r : RegisterUserResp × Error) : Error :=
  match r.2 with
  | some e => some e
  | none => if r.1.ErrCode ≠ 0 then some r.1.ErrMsg else none

/-- The error `getUserIMToken` makes of an answer of the remote service. -/
def tokenError (r : UserTokenResp × Error) : Error :=
  match r.2 with
  | some e => some e
  | none => if r.1.ErrCode ≠ 0 then some r.1.ErrMsg else none

/-! ## Reading the trace -/

/-- The collaborator call reports an error: a false verification check, a
non-nil error, or (remote calls) a non-zero application code. -/
def Event.failed : Event → Prop
  | .checkCode _ _ ok => ok = false
  | .createCommunity _ _ err => err ≠ none
  | .daoCreate _ err => err ≠ none
  | .daoFindByUUID _ _ err => err ≠ none
  | .daoFindByEmail _ _ err => err ≠ none
  | .daoDelete _ err => err ≠ none
  | .registerUser _ _ resp err => err ≠ none ∨ resp.ErrCode ≠ 0
  | .generateJwt _ _ _ _ err => err ≠ none
  | .getUserToken _ _ resp err => err ≠ none ∨ resp.ErrCode ≠ 0

instance (e : Event) : Decidable e.failed := by
  cases e <;> unfold Event.failed <;> infer_instance

/-- The call is the re-read of a row by its identifier, or a delete: the two
calls whose error the registration workflows discard. -/
def Event.discarded : Event → Prop
  | .daoFindByUUID _ _ _ => True
  | .daoDelete _ _ => True
  | _ => False

instance (e : Event) : Decidable e.discarded := by
  cases e <;> unfold Event.discarded <;> infer_instance

/-- The call belongs to the opening of `CreateAdmin`: the verification check
or the community creation. -/
def Event.opening : Event → Prop
  | .checkCode _ _ _ => True
  | .createCommunity _ _ _ => True
  | _ => False

instance (e : Event) : Decidable e.opening := by
  cases e <;> unfold Event.opening <;> infer_instance

/-- Every row of the store has an id the store has handed out: positive and
below the next id. -/
def World.wellFormed (w : World) : Prop :=
  ∀ r ∈ w.users, 0 < r.Id ∧ r.Id < w.nextId

instance (w : World) : Decidable w.wellFormed := by
  unfold World.wellFormed; infer_instance

/-- Every identifier registered with the remote service has a local row. -/
def World.remoteHasLocal (w : World) : Prop :=
  ∀ id ∈ w.imUsers, w.hasUser id

instance (w : World) : Decidable w.remoteHasLocal := by
  unfold World.remoteHasLocal; infer_instance

/-! ## The two provisioning entry points as one -/

/-- A registration request: the body of `POST /register/admin` or of
`POST /register/staff` (see `router.go`). -/
inductive RegisterRequest where
  | admin (p : RegisterAdminParams)
  | staff (p : RegisterStaffParams)
deriving DecidableEq

/-- Runs the workflow a registration request is routed to. -/
def Register (c : Env) (w : World) : RegisterRequest → Outcome (String × Nat × Error) × World
  | .admin p => CreateAdmin c w p
  | .staff p => CreateStaff c w p

/-! ## Concrete inputs -/

/-- A store with one staff row, and a next id of 5. -/
def w0 : World :=
  { users := [{ Id := 3,
                UserBase := { UUID := "u-3", Email := "b@x.com", Nickname := "B",
                              Avatar := "", IsEnable := true },
                IsAdmin := false, Password := "h:p3", CommunityId := 7 }],
    nextId := 5, communities := [], imUsers := ["u-3"], trace := [] }

/-- Collaborators that all answer without error. -/
def env0 : Env :=
  { Config := { Secret := "s", Ip := "127.0.0.1", ApiPort := 10002, PlatformID := 5 },
    checkCode := fun _ code => code == "1234",
    createCommunity := fun _ => ("c-9", 9, none),
    genUUID := "u-5",
    encryptPassword := fun p => "h:" ++ p,
    comparePassword := fun p h => "h:" ++ p == h,
    createFault := none, findByUUIDFault := none, findByEmailFault := none,
    deleteFault := none,
    registerUser := fun _ _ => ({ ErrCode := 0, ErrMsg := "" }, none),
    generateJwtToken := fun _ _ => ("kf", 3600, none),
    getUserToken := fun _ _ =>
      ({ ErrCode := 0, ErrMsg := "", Data := { Token := "im", ExpireTimeSeconds := 7200 } }, none) }

/-- The staff registration of the specification's example. -/
def staffReq : RegisterStaffParams :=
  { CommunityId := 7,
    UserInfo := { Email := "a@x.com", Nickname := "A", Password := "p1", Avatar := some "" } }

/-- An admin registration. -/
def adminReq : RegisterAdminParams :=
  { Code := "1234", CommunityInfo := { Name := "acme" },
    UserInfo := { Email := "a@x.com", Nickname := "A", Password := "p1", Avatar := some "" } }

/-- Collaborators as in `env0`, but the remote registration answers with
application code 500 and the store refuses the delete. -/
def envDeleteFails : Env :=
  { env0 with
    deleteFault := some "db down",
    registerUser := fun _ _ => ({ ErrCode := 500, ErrMsg := "remote says no" }, none) }

/-- Collaborators as in `env0`, but the remote registration answers with
application code 500 and the re-read of the row reports an error. -/
def envRereadFailsRemoteFails : Env :=
  { env0 with
    findByUUIDFault := some "db down",
    registerUser := fun _ _ => ({ ErrCode := 500, ErrMsg := "remote says no" }, none) }

/-- Collaborators as in `env0`, but the remote registration answers with
application code 500. -/
def envRemoteFails : Env :=
  { env0 with
    registerUser := fun _ _ => ({ ErrCode := 500, ErrMsg := "remote says no" }, none) }

/-- Collaborators as in `env0`, but the re-read of the row reports an error. -/
def envRereadFails : Env :=
  { env0 with findByUUIDFault := some "db down" }

/-- An admin registration whose verification code is not the one sent. -/
def adminReqBadCode : RegisterAdminParams :=
  { adminReq with Code := "0000" }

/-- A login of the account in `w0` with its password. -/
def loginReq : LoginParamsWithAccount :=
  { Email := "b@x.com", Password := "p3" }

/-- A login of the account in `w0` with another password. -/
def loginReqWrongPassword : LoginParamsWithAccount :=
  { Email := "b@x.com", Password := "guess" }

/-- Collaborators as in `env0`, but the remote token fetch answers with
application code 1001. -/
def envTokenFails : Env :=
  { env0 with
    getUserToken := fun _ _ =>
      ({ ErrCode := 1001, ErrMsg := "no token", Data := TokenData.zero }, none) }

/-- Collaborators as in `env0`, but the token issuer answers with an expiry
of 0 seconds and the remote service, with application code 0, with an expiry
of -1 second. -/
def envNoExpiry : Env :=
  { env0 with
    generateJwtToken := fun _ _ => ("kf", 0, none),
    getUserToken := fun _ _ =>
      ({ ErrCode := 0, ErrMsg := "", Data := { Token := "im", ExpireTimeSeconds := -1 } },
       none) }

/-! ## Unfolding lemmas -/

theorem CreateStaff_eq (c : Env) (w : World) (user : RegisterStaffParams) (a : String)
    (h : user.UserInfo.Avatar = some a) :
    CreateStaff c w user
      = createAndRegister c w c.genUUID (staffRow c user a) user.UserInfo.Nickname := by
  simp only [CreateStaff, h, createAndRegister, staffRow, registerParam, utils.GenUUID]

theorem CreateStaff_nil (c : Env) (w : World) (user : RegisterStaffParams)
    (h : user.UserInfo.Avatar = none) :
    CreateStaff c w user = (.panicked, w) := by
  simp only [CreateStaff, h]

theorem CreateAdmin_badCode (c : Env) (w : World) (user : RegisterAdminParams)
    (h : c.checkCode user.UserInfo.Email user.Code = false) :
    CreateAdmin c w user
      = (.returned ("", 0, some "code is not valid"),
         w.log (.checkCode user.UserInfo.Email user.Code false)) := by
  simp [CreateAdmin, MailService.CheckCode, h]

theorem CreateAdmin_communityErr (c : Env) (w : World) (user : RegisterAdminParams) (e : String)
    (h : c.checkCode user.UserInfo.Email user.Code = true)
    (hc : (c.createCommunity user.CommunityInfo).2.2 = some e) :
    CreateAdmin c w user
      = (.returned ("", 0, some e),
         { w with trace := w.trace ++ [.checkCode user.UserInfo.Email user.Code true,
             .createCommunity user.CommunityInfo (c.createCommunity user.CommunityInfo).2.1
               (some e)] }) := by
  simp [CreateAdmin, MailService.CheckCode, CommunityService.Create, World.log, h, hc]

theorem CreateAdmin_nil (c : Env) (w : World) (user : RegisterAdminParams)
    (h : c.checkCode user.UserInfo.Email user.Code = true)
    (hc : (c.createCommunity user.CommunityInfo).2.2 = none)
    (ha : user.UserInfo.Avatar = none) :
    CreateAdmin c w user
      = (.panicked, w.afterCommunity user (c.createCommunity user.CommunityInfo).2.1) := by
  simp [CreateAdmin, MailService.CheckCode, CommunityService.Create, World.log, h, hc, ha,
    World.afterCommunity]

theorem CreateAdmin_eq (c : Env) (w : World) (user : RegisterAdminParams) (a : String)
    (h : c.checkCode user.UserInfo.Email user.Code = true)
    (hc : (c.createCommunity user.CommunityInfo).2.2 = none)
    (ha : user.UserInfo.Avatar = some a) :
    CreateAdmin c w user
      = createAndRegister c (w.afterCommunity user (c.createCommunity user.CommunityInfo).2.1)
          c.genUUID (adminRow c user a (c.createCommunity user.CommunityInfo).2.1)
          user.UserInfo.Nickname := by
  simp [CreateAdmin, MailService.CheckCode, CommunityService.Create, World.log, h, hc, ha,
    World.afterCommunity, createAndRegister, adminRow, registerParam, utils.GenUUID]


theorem registerUserToOpenIM_eq (c : Env) (w : World) (p : RegisterUserParams) :
    registerUserToOpenIM c w p
      = (((remoteError (c.registerUser p (openIMHost c))).isNone,
          remoteError (c.registerUser p (openIMHost c))),
         { w with
           imUsers := if remoteError (c.registerUser p (openIMHost c)) = none
                      then w.imUsers ++ p.Users.map (fun u => u.UserID) else w.imUsers,
           trace := w.trace ++ [.registerUser p (openIMHost c)
                      (c.registerUser p (openIMHost c)).1
                      (c.registerUser p (openIMHost c)).2] }) := by
  unfold registerUserToOpenIM user.RegisterUser remoteError World.log
  cases h : (c.registerUser p (openIMHost c)).2 with
  | some e => simp [h]
  | none =>
    by_cases h0 : (c.registerUser p (openIMHost c)).1.ErrCode = 0 <;> simp [h, h0]

theorem Create_err (c : Env) (w : World) (row : SysUser) (e : String)
    (h : (SysUserDao.Create c w row).1 = some e) :
    SysUserDao.Create c w row = (some e, w.log (.daoCreate row (some e))) := by
  unfold SysUserDao.Create at h ⊢
  cases hf : c.createFault with
  | some e1 => simp [hf] at h ⊢; simp [h]
  | none =>
    simp only [hf] at h ⊢
    split at h
    · rename_i hdup; simp at h; simp [hdup, h]
    · simp at h

theorem Create_ok (c : Env) (w : World) (row : SysUser)
    (h : (SysUserDao.Create c w row).1 = none) :
    SysUserDao.Create c w row
      = (none, { w with users := w.users ++ [w.stored row], nextId := w.nextId + 1,
                        trace := w.trace ++ [.daoCreate row none] }) := by
  unfold SysUserDao.Create at h ⊢
  cases hf : c.createFault with
  | some e1 => simp [hf] at h
  | none =>
    simp only [hf] at h ⊢
    split at h
    · simp at h
    · rename_i hdup; simp [hdup, World.stored]

/-- The three ways the common lines end: the store rejects the row; the row is
stored and the remote registration fails (the compensating delete runs); the
row is stored and the remote registration succeeds. -/
theorem createAndRegister_cases (c : Env) (w : World) (uuid : String) (row : SysUser)
    (nick : String) :
    (∃ e, (SysUserDao.Create c w row).1 = some e ∧
      createAndRegister c w uuid row nick
        = (.returned (uuid, 0, some e), w.log (.daoCreate row (some e))))
    ∨ (∃ e, (SysUserDao.Create c w row).1 = none ∧
        remoteError (c.registerUser (registerParam c uuid nick) (openIMHost c)) = some e ∧
        createAndRegister c w uuid row nick
          = (.returned (uuid, (SysUserDao.findByUUID c (w.users ++ [w.stored row]) uuid).1.Id,
               some e),
             { users := match c.deleteFault with
                 | some _ => w.users ++ [w.stored row]
                 | none => (w.users ++ [w.stored row]).filter (fun r => decide (r.Id ≠
                     (SysUserDao.findByUUID c (w.users ++ [w.stored row]) uuid).1.Id)),
               nextId := w.nextId + 1,
               communities := w.communities,
               imUsers := w.imUsers,
               trace := w.trace ++
                 [.daoCreate row none,
                  .daoFindByUUID uuid
                    (SysUserDao.findByUUID c (w.users ++ [w.stored row]) uuid).1
                    (SysUserDao.findByUUID c (w.users ++ [w.stored row]) uuid).2,
                  .registerUser (registerParam c uuid nick) (openIMHost c)
                    (c.registerUser (registerParam c uuid nick) (openIMHost c)).1
                    (c.registerUser (registerParam c uuid nick) (openIMHost c)).2,
                  .daoDelete (SysUserDao.findByUUID c (w.users ++ [w.stored row]) uuid).1
                    c.deleteFault] }))
    ∨ ((SysUserDao.Create c w row).1 = none ∧
        remoteError (c.registerUser (registerParam c uuid nick) (openIMHost c)) = none ∧
        createAndRegister c w uuid row nick
          = (.returned (uuid, (SysUserDao.findByUUID c (w.users ++ [w.stored row]) uuid).1.Id,
               none),
             { users := w.users ++ [w.stored row],
               nextId := w.nextId + 1,
               communities := w.communities,
               imUsers := w.imUsers ++ [uuid],
               trace := w.trace ++
                 [.daoCreate row none,
                  .daoFindByUUID uuid
                    (SysUserDao.findByUUID c (w.users ++ [w.stored row]) uuid).1
                    (SysUserDao.findByUUID c (w.users ++ [w.stored row]) uuid).2,
                  .registerUser (registerParam c uuid nick) (openIMHost c)
                    (c.registerUser (registerParam c uuid nick) (openIMHost c)).1
                    (c.registerUser (registerParam c uuid nick) (openIMHost c)).2] })) := by
  cases hc : (SysUserDao.Create c w row).1 with
  | some e =>
    left
    refine ⟨e, rfl, ?_⟩
    simp [createAndRegister, Create_err c w row e hc]
  | none =>
    right
    cases hr : remoteError (c.registerUser (registerParam c uuid nick) (openIMHost c)) with
    | some e =>
      left
      refine ⟨e, rfl, rfl, ?_⟩
      simp only [createAndRegister, Create_ok c w row hc, SysUserDao.FindFirstByUUID,
        registerUserToOpenIM_eq, hr, World.log, SysUserDao.Delete]
      cases hd : c.deleteFault <;> simp [World.log]
    | none =>
      right
      refine ⟨rfl, rfl, ?_⟩
      simp only [createAndRegister, Create_ok c w row hc, SysUserDao.FindFirstByUUID,
        registerUserToOpenIM_eq, hr, World.log]
      simp [registerParam]

theorem since_of_trace (w2 w : World) (t : List Event) (h : w2.trace = w.trace ++ t) :
    w2.since w = t := by
  simp [World.since, h]

theorem findByUUID_fresh (c : Env) (users : List SysUser) (row : SysUser) (uuid : String)
    (hfresh : ∀ r ∈ users, r.UserBase.UUID ≠ uuid) (hrow : row.UserBase.UUID = uuid)
    (herr : (SysUserDao.findByUUID c (users ++ [row]) uuid).2 = none) :
    (SysUserDao.findByUUID c (users ++ [row]) uuid).1 = row := by
  unfold SysUserDao.findByUUID at herr ⊢
  cases hf : c.findByUUIDFault with
  | some e => simp [hf] at herr
  | none =>
    have hnone : List.find? (fun r => decide (r.UserBase.UUID = uuid)) users = none := by
      simp only [List.find?_eq_none]
      intro r hr; simpa using hfresh r hr
    simp [List.find?_append, hnone, hrow]

theorem findByUUID_fault (c : Env) (users : List SysUser) (uuid : String)
    (herr : (SysUserDao.findByUUID c users uuid).2 ≠ none) :
    (SysUserDao.findByUUID c users uuid).1 = SysUser.zero := by
  unfold SysUserDao.findByUUID at herr ⊢
  cases hf : c.findByUUIDFault with
  | some e => simp
  | none =>
    simp only [hf] at herr ⊢
    cases hl : List.find? (fun r => decide (r.UserBase.UUID = uuid)) users with
    | some u => simp [hl] at herr
    | none => simp

/-- Every registration either stops in its opening (bad code, community
error, nil avatar) without touching the store or the remote service, or runs
the common lines on a world that differs from the first one only in its
communities and trace. -/
theorem Register_cases (c : Env) (w : World) (req : RegisterRequest) :
    (∃ out w1 pre, Register c w req = (out, w1) ∧
        w1.users = w.users ∧ w1.nextId = w.nextId ∧ w1.imUsers = w.imUsers ∧
        w1.trace = w.trace ++ pre ∧ (∀ ev ∈ pre, ev.opening) ∧
        ((∃ e, out = .returned ("", 0, some e) ∧ ∃ ev ∈ pre, ev.failed) ∨
         (out = .panicked ∧ ∀ ev ∈ pre, ¬ ev.failed)))
    ∨ (∃ w1 pre row nick, Register c w req = createAndRegister c w1 c.genUUID row nick ∧
        w1.users = w.users ∧ w1.nextId = w.nextId ∧ w1.imUsers = w.imUsers ∧
        w1.trace = w.trace ++ pre ∧ (∀ ev ∈ pre, ev.opening ∧ ¬ ev.failed) ∧
        row.UserBase.UUID = c.genUUID) := by
  cases req with
  | staff u =>
    cases ha : u.UserInfo.Avatar with
    | none =>
      left
      refine ⟨.panicked, w, [], ?_, rfl, rfl, rfl, by simp, by simp, Or.inr ⟨rfl, by simp⟩⟩
      simp [Register, CreateStaff_nil c w u ha]
    | some a =>
      right
      refine ⟨w, [], staffRow c u a, u.UserInfo.Nickname, ?_, rfl, rfl, rfl, by simp, by simp, rfl⟩
      simp [Register, CreateStaff_eq c w u a ha]
  | admin u =>
    cases hcode : c.checkCode u.UserInfo.Email u.Code with
    | false =>
      left
      refine ⟨_, _, [.checkCode u.UserInfo.Email u.Code false],
        (by simpa [Register] using CreateAdmin_badCode c w u hcode), ?_, ?_, ?_, ?_, ?_, ?_⟩
      · rfl
      · rfl
      · rfl
      · rfl
      · simp [Event.opening]
      · left; exact ⟨_, rfl, by simp [Event.failed]⟩
    | true =>
      cases hcomm : (c.createCommunity u.CommunityInfo).2.2 with
      | some e =>
        left
        refine ⟨_, _, [.checkCode u.UserInfo.Email u.Code true,
            .createCommunity u.CommunityInfo (c.createCommunity u.CommunityInfo).2.1 (some e)],
          (by simpa [Register] using CreateAdmin_communityErr c w u e hcode hcomm),
          ?_, ?_, ?_, ?_, ?_, ?_⟩
        · rfl
        · rfl
        · rfl
        · rfl
        · simp [Event.opening]
        · left; exact ⟨_, rfl, by simp [Event.failed]⟩
      | none =>
        cases ha : u.UserInfo.Avatar with
        | none =>
          left
          refine ⟨_, _, [.checkCode u.UserInfo.Email u.Code true,
              .createCommunity u.CommunityInfo (c.createCommunity u.CommunityInfo).2.1 none],
            (by simpa [Register] using CreateAdmin_nil c w u hcode hcomm ha),
            ?_, ?_, ?_, ?_, ?_, ?_⟩
          · rfl
          · rfl
          · rfl
          · rfl
          · simp [Event.opening]
          · right; exact ⟨rfl, by simp [Event.failed]⟩
        | some a =>
          right
          refine ⟨w.afterCommunity u (c.createCommunity u.CommunityInfo).2.1,
            [.checkCode u.UserInfo.Email u.Code true,
              .createCommunity u.CommunityInfo (c.createCommunity u.CommunityInfo).2.1 none],
            adminRow c u a (c.createCommunity u.CommunityInfo).2.1, u.UserInfo.Nickname,
            (by simpa [Register] using CreateAdmin_eq c w u a hcode hcomm ha),
            rfl, rfl, rfl, rfl, ?_, rfl⟩
          simp [Event.opening, Event.failed]

theorem stored_congr (w1 w : World) (row : SysUser) (h : w1.nextId = w.nextId) :
    w1.stored row = w.stored row := by
  simp [World.stored, h]

/-- The four ways a registration ends, with the outcome, the store, the remote
identities and the calls made in each: it stops in its opening; the store
rejects the row; the remote registration fails and the compensating delete is
issued; the remote registration succeeds. -/
theorem Register_paths (c : Env) (w : World) (req : RegisterRequest) :
    ∃ pre : List Event, (∀ ev ∈ pre, ev.opening) ∧
      (((Register c w req).2.since w = pre ∧
          (Register c w req).2.users = w.users ∧
          (Register c w req).2.nextId = w.nextId ∧
          (Register c w req).2.imUsers = w.imUsers ∧
          ((∃ e, (Register c w req).1 = .returned ("", 0, some e) ∧ ∃ ev ∈ pre, ev.failed) ∨
           ((Register c w req).1 = .panicked ∧ ∀ ev ∈ pre, ¬ ev.failed)))
      ∨ (∃ row e, (∀ ev ∈ pre, ¬ ev.failed) ∧ row.UserBase.UUID = c.genUUID ∧
          (Register c w req).2.since w = pre ++ [.daoCreate row (some e)] ∧
          (Register c w req).2.users = w.users ∧
          (Register c w req).2.nextId = w.nextId ∧
          (Register c w req).2.imUsers = w.imUsers ∧
          (Register c w req).1 = .returned (c.genUUID, 0, some e))
      ∨ (∃ row nick e, (∀ ev ∈ pre, ¬ ev.failed) ∧ row.UserBase.UUID = c.genUUID ∧
          remoteError (c.registerUser (registerParam c c.genUUID nick) (openIMHost c)) = some e ∧
          (Register c w req).2.since w = pre ++
            [.daoCreate row none,
             .daoFindByUUID c.genUUID
               (SysUserDao.findByUUID c (w.users ++ [w.stored row]) c.genUUID).1
               (SysUserDao.findByUUID c (w.users ++ [w.stored row]) c.genUUID).2,
             .registerUser (registerParam c c.genUUID nick) (openIMHost c)
               (c.registerUser (registerParam c c.genUUID nick) (openIMHost c)).1
               (c.registerUser (registerParam c c.genUUID nick) (openIMHost c)).2,
             .daoDelete (SysUserDao.findByUUID c (w.users ++ [w.stored row]) c.genUUID).1
               c.deleteFault] ∧
          (Register c w req).2.users =
            (match c.deleteFault with
              | some _ => w.users ++ [w.stored row]
              | none => (w.users ++ [w.stored row]).filter (fun r => decide (r.Id ≠
                  (SysUserDao.findByUUID c (w.users ++ [w.stored row]) c.genUUID).1.Id))) ∧
          (Register c w req).2.nextId = w.nextId + 1 ∧
          (Register c w req).2.imUsers = w.imUsers ∧
          (Register c w req).1 = .returned (c.genUUID,
            (SysUserDao.findByUUID c (w.users ++ [w.stored row]) c.genUUID).1.Id, some e))
      ∨ (∃ row nick, (∀ ev ∈ pre, ¬ ev.failed) ∧ row.UserBase.UUID = c.genUUID ∧
          remoteError (c.registerUser (registerParam c c.genUUID nick) (openIMHost c)) = none ∧
          (Register c w req).2.since w = pre ++
            [.daoCreate row none,
             .daoFindByUUID c.genUUID
               (SysUserDao.findByUUID c (w.users ++ [w.stored row]) c.genUUID).1
               (SysUserDao.findByUUID c (w.users ++ [w.stored row]) c.genUUID).2,
             .registerUser (registerParam c c.genUUID nick) (openIMHost c)
               (c.registerUser (registerParam c c.genUUID nick) (openIMHost c)).1
               (c.registerUser (registerParam c c.genUUID nick) (openIMHost c)).2] ∧
          (Register c w req).2.users = w.users ++ [w.stored row] ∧
          (Register c w req).2.nextId = w.nextId + 1 ∧
          (Register c w req).2.imUsers = w.imUsers ++ [c.genUUID] ∧
          (Register c w req).1 = .returned (c.genUUID,
            (SysUserDao.findByUUID c (w.users ++ [w.stored row]) c.genUUID).1.Id, none))) := by
  rcases Register_cases c w req with
    ⟨out, w1, pre, hR, hu, hn, hi, ht, hop, hout⟩ | ⟨w1, pre, row, nick, hR, hu, hn, hi, ht, hop, hrow⟩
  · refine ⟨pre, hop, Or.inl ?_⟩
    rw [hR]
    exact ⟨since_of_trace _ _ _ ht, hu, hn, hi, hout⟩
  · refine ⟨pre, fun ev h => (hop ev h).1, Or.inr ?_⟩
    have hnf : ∀ ev ∈ pre, ¬ ev.failed := fun ev h => (hop ev h).2
    have hst : w1.stored row = w.stored row := stored_congr w1 w row hn
    rw [hR]
    rcases createAndRegister_cases c w1 c.genUUID row nick with
      ⟨e, hc, hE⟩ | ⟨e, hc, hr, hE⟩ | ⟨hc, hr, hE⟩
    · left
      refine ⟨row, e, hnf, hrow, ?_⟩
      rw [hE]
      refine ⟨since_of_trace _ _ _ (by simp [World.log, ht]), ?_, ?_, ?_, rfl⟩
      · simpa [World.log] using hu
      · simpa [World.log] using hn
      · simpa [World.log] using hi
    · right; left
      refine ⟨row, nick, e, hnf, hrow, hr, ?_⟩
      rw [hE]
      refine ⟨since_of_trace _ _ _ (by simp [ht, hu, hst]), ?_, ?_, ?_, ?_⟩ <;>
        simp [hu, hst, hn, hi]
    · right; right
      refine ⟨row, nick, hnf, hrow, hr, ?_⟩
      rw [hE]
      refine ⟨since_of_trace _ _ _ (by simp [ht, hu, hst]), ?_, ?_, ?_, ?_⟩ <;>
        simp [hu, hst, hn, hi]

theorem remoteError_some_iff (r : RegisterUserResp × Error) :
    (∃ e, remoteError r = some e) ↔ (r.2 ≠ none ∨ r.1.ErrCode ≠ 0) := by
  unfold remoteError
  cases h : r.2 with
  | some e => simp
  | none => by_cases h0 : r.1.ErrCode = 0 <;> simp [h0]

theorem remoteError_none_iff (r : RegisterUserResp × Error) :
    remoteError r = none ↔ (r.2 = none ∧ r.1.ErrCode = 0) := by
  unfold remoteError
  cases h : r.2 with
  | some e => simp
  | none => by_cases h0 : r.1.ErrCode = 0 <;> simp [h0]

theorem opening_not_daoCreate {pre : List Event} (h : ∀ ev ∈ pre, ev.opening)
    (row : SysUser) (e : Error) : Event.daoCreate row e ∉ pre := by
  intro hm; have := h _ hm; simp [Event.opening] at this

theorem opening_not_registerUser {pre : List Event} (h : ∀ ev ∈ pre, ev.opening)
    (p : RegisterUserParams) (host : String) (resp : RegisterUserResp) (e : Error) :
    Event.registerUser p host resp e ∉ pre := by
  intro hm; have := h _ hm; simp [Event.opening] at this

theorem opening_not_daoDelete {pre : List Event} (h : ∀ ev ∈ pre, ev.opening)
    (u : SysUser) (e : Error) : Event.daoDelete u e ∉ pre := by
  intro hm; have := h _ hm; simp [Event.opening] at this

/-- A call that is not part of the opening sits after the opening. -/
theorem split_after_opening {pre0 tail pre post : List Event} {x : Event}
    (hop : ∀ ev ∈ pre0, ev.opening) (hx : ¬ x.opening)
    (h : pre0 ++ tail = pre ++ x :: post) :
    ∃ mid, pre = pre0 ++ mid ∧ tail = mid ++ x :: post := by
  rcases List.append_eq_append_iff.mp h with ⟨a, h1, h2⟩ | ⟨c, h1, h2⟩
  · exact ⟨a, h1, h2⟩
  · cases c with
    | nil => exact ⟨[], by simpa using h1.symm, by simpa using h2.symm⟩
    | cons y t =>
      simp only [List.cons_append, List.cons.injEq] at h2
      have : x ∈ pre0 := by rw [h1, h2.1]; simp
      exact absurd (hop x this) hx

/-- The three ways the common lines end, read from the world `w` the workflow
started in: `w1` is the world the common lines start in, `pre` the calls made
before them. -/
theorem tail_paths (c : Env) (w w1 : World) (pre : List Event) (row : SysUser) (nick : String)
    (hu : w1.users = w.users) (hn : w1.nextId = w.nextId) (hi : w1.imUsers = w.imUsers)
    (ht : w1.trace = w.trace ++ pre) :
    (∃ e,
        (createAndRegister c w1 c.genUUID row nick).2.since w
          = pre ++ [.daoCreate row (some e)] ∧
        (createAndRegister c w1 c.genUUID row nick).2.users = w.users ∧
        (createAndRegister c w1 c.genUUID row nick).2.nextId = w.nextId ∧
        (createAndRegister c w1 c.genUUID row nick).2.imUsers = w.imUsers ∧
        (createAndRegister c w1 c.genUUID row nick).2.communities = w1.communities ∧
        (createAndRegister c w1 c.genUUID row nick).1 = .returned (c.genUUID, 0, some e))
    ∨ (∃ e,
        remoteError (c.registerUser (registerParam c c.genUUID nick) (openIMHost c)) = some e ∧
        (createAndRegister c w1 c.genUUID row nick).2.since w = pre ++
          [.daoCreate row none,
           .daoFindByUUID c.genUUID
             (SysUserDao.findByUUID c (w.users ++ [w.stored row]) c.genUUID).1
             (SysUserDao.findByUUID c (w.users ++ [w.stored row]) c.genUUID).2,
           .registerUser (registerParam c c.genUUID nick) (openIMHost c)
             (c.registerUser (registerParam c c.genUUID nick) (openIMHost c)).1
             (c.registerUser (registerParam c c.genUUID nick) (openIMHost c)).2,
           .daoDelete (SysUserDao.findByUUID c (w.users ++ [w.stored row]) c.genUUID).1
             c.deleteFault] ∧
        (createAndRegister c w1 c.genUUID row nick).2.users =
          (match c.deleteFault with
            | some _ => w.users ++ [w.stored row]
            | none => (w.users ++ [w.stored row]).filter (fun r => decide (r.Id ≠
                (SysUserDao.findByUUID c (w.users ++ [w.stored row]) c.genUUID).1.Id))) ∧
        (createAndRegister c w1 c.genUUID row nick).2.nextId = w.nextId + 1 ∧
        (createAndRegister c w1 c.genUUID row nick).2.imUsers = w.imUsers ∧
        (createAndRegister c w1 c.genUUID row nick).2.communities = w1.communities ∧
        (createAndRegister c w1 c.genUUID row nick).1 = .returned (c.genUUID,
          (SysUserDao.findByUUID c (w.users ++ [w.stored row]) c.genUUID).1.Id, some e))
    ∨ (remoteError (c.registerUser (registerParam c c.genUUID nick) (openIMHost c)) = none ∧
        (createAndRegister c w1 c.genUUID row nick).2.since w = pre ++
          [.daoCreate row none,
           .daoFindByUUID c.genUUID
             (SysUserDao.findByUUID c (w.users ++ [w.stored row]) c.genUUID).1
             (SysUserDao.findByUUID c (w.users ++ [w.stored row]) c.genUUID).2,
           .registerUser (registerParam c c.genUUID nick) (openIMHost c)
             (c.registerUser (registerParam c c.genUUID nick) (openIMHost c)).1
             (c.registerUser (registerParam c c.genUUID nick) (openIMHost c)).2] ∧
        (createAndRegister c w1 c.genUUID row nick).2.users = w.users ++ [w.stored row] ∧
        (createAndRegister c w1 c.genUUID row nick).2.nextId = w.nextId + 1 ∧
        (createAndRegister c w1 c.genUUID row nick).2.imUsers = w.imUsers ++ [c.genUUID] ∧
        (createAndRegister c w1 c.genUUID row nick).2.communities = w1.communities ∧
        (createAndRegister c w1 c.genUUID row nick).1 = .returned (c.genUUID,
          (SysUserDao.findByUUID c (w.users ++ [w.stored row]) c.genUUID).1.Id, none)) := by
  have hst : w1.stored row = w.stored row := stored_congr w1 w row hn
  rcases createAndRegister_cases c w1 c.genUUID row nick with
    ⟨e, hc, hE⟩ | ⟨e, hc, hr, hE⟩ | ⟨hc, hr, hE⟩
  · left
    refine ⟨e, ?_⟩
    rw [hE]
    refine ⟨since_of_trace _ _ _ (by simp [World.log, ht]), ?_, ?_, ?_, rfl, rfl⟩
    · simpa [World.log] using hu
    · simpa [World.log] using hn
    · simpa [World.log] using hi
  · right; left
    refine ⟨e, hr, ?_⟩
    rw [hE]
    refine ⟨since_of_trace _ _ _ (by simp [ht, hu, hst]), ?_, ?_, ?_, ?_, ?_⟩ <;>
      simp [hu, hst, hn, hi]
  · right; right
    refine ⟨hr, ?_⟩
    rw [hE]
    refine ⟨since_of_trace _ _ _ (by simp [ht, hu, hst]), ?_, ?_, ?_, ?_, ?_⟩ <;>
      simp [hu, hst, hn, hi]

/-- The ways `CreateAdmin` ends once the code is valid, the community is
created under the id `cid` and the avatar is set. -/
theorem CreateAdmin_paths (c : Env) (w : World) (user : RegisterAdminParams) (a : String)
    (h : c.checkCode user.UserInfo.Email user.Code = true)
    (hc : (c.createCommunity user.CommunityInfo).2.2 = none)
    (ha : user.UserInfo.Avatar = some a) :
    (CreateAdmin c w user).2.communities
      = w.communities ++ [((c.createCommunity user.CommunityInfo).2.1, user.CommunityInfo)] ∧
    ((∃ e,
        (CreateAdmin c w user).2.since w
          = [.checkCode user.UserInfo.Email user.Code true,
             .createCommunity user.CommunityInfo (c.createCommunity user.CommunityInfo).2.1 none,
             .daoCreate (adminRow c user a (c.createCommunity user.CommunityInfo).2.1) (some e)] ∧
        (CreateAdmin c w user).2.users = w.users ∧
        (CreateAdmin c w user).1 = .returned (c.genUUID, 0, some e))
    ∨ (∃ e,
        remoteError (c.registerUser (registerParam c c.genUUID user.UserInfo.Nickname)
          (openIMHost c)) = some e ∧
        (CreateAdmin c w user).2.since w
          = [.checkCode user.UserInfo.Email user.Code true,
             .createCommunity user.CommunityInfo (c.createCommunity user.CommunityInfo).2.1 none,
             .daoCreate (adminRow c user a (c.createCommunity user.CommunityInfo).2.1) none,
             .daoFindByUUID c.genUUID
               (SysUserDao.findByUUID c (w.users ++
                 [w.stored (adminRow c user a (c.createCommunity user.CommunityInfo).2.1)])
                 c.genUUID).1
               (SysUserDao.findByUUID c (w.users ++
                 [w.stored (adminRow c user a (c.createCommunity user.CommunityInfo).2.1)])
                 c.genUUID).2,
             .registerUser (registerParam c c.genUUID user.UserInfo.Nickname) (openIMHost c)
               (c.registerUser (registerParam c c.genUUID user.UserInfo.Nickname)
                 (openIMHost c)).1
               (c.registerUser (registerParam c c.genUUID user.UserInfo.Nickname)
                 (openIMHost c)).2,
             .daoDelete
               (SysUserDao.findByUUID c (w.users ++
                 [w.stored (adminRow c user a (c.createCommunity user.CommunityInfo).2.1)])
                 c.genUUID).1
               c.deleteFault])
    ∨ (remoteError (c.registerUser (registerParam c c.genUUID user.UserInfo.Nickname)
          (openIMHost c)) = none ∧
        (CreateAdmin c w user).2.since w
          = [.checkCode user.UserInfo.Email user.Code true,
             .createCommunity user.CommunityInfo (c.createCommunity user.CommunityInfo).2.1 none,
             .daoCreate (adminRow c user a (c.createCommunity user.CommunityInfo).2.1) none,
             .daoFindByUUID c.genUUID
               (SysUserDao.findByUUID c (w.users ++
                 [w.stored (adminRow c user a (c.createCommunity user.CommunityInfo).2.1)])
                 c.genUUID).1
               (SysUserDao.findByUUID c (w.users ++
                 [w.stored (adminRow c user a (c.createCommunity user.CommunityInfo).2.1)])
                 c.genUUID).2,
             .registerUser (registerParam c c.genUUID user.UserInfo.Nickname) (openIMHost c)
               (c.registerUser (registerParam c c.genUUID user.UserInfo.Nickname)
                 (openIMHost c)).1
               (c.registerUser (registerParam c c.genUUID user.UserInfo.Nickname)
                 (openIMHost c)).2] ∧
        (CreateAdmin c w user).2.users
          = w.users ++ [w.stored (adminRow c user a (c.createCommunity user.CommunityInfo).2.1)] ∧
        (CreateAdmin c w user).2.imUsers = w.imUsers ++ [c.genUUID] ∧
        (CreateAdmin c w user).1 = .returned (c.genUUID,
          (SysUserDao.findByUUID c (w.users ++
            [w.stored (adminRow c user a (c.createCommunity user.CommunityInfo).2.1)])
            c.genUUID).1.Id, none))) := by
  rw [CreateAdmin_eq c w user a h hc ha]
  rcases tail_paths c w (w.afterCommunity user (c.createCommunity user.CommunityInfo).2.1)
      [.checkCode user.UserInfo.Email user.Code true,
       .createCommunity user.CommunityInfo (c.createCommunity user.CommunityInfo).2.1 none]
      (adminRow c user a (c.createCommunity user.CommunityInfo).2.1) user.UserInfo.Nickname
      rfl rfl rfl rfl with
    ⟨e, hs, hU, -, -, hC, ho⟩ | ⟨e, hr, hs, -, -, -, hC, -⟩ | ⟨hr, hs, hU, -, hI, hC, ho⟩
  · exact ⟨hC, Or.inl ⟨e, hs, hU, ho⟩⟩
  · exact ⟨hC, Or.inr (Or.inl ⟨e, hr, hs⟩)⟩
  · exact ⟨hC, Or.inr (Or.inr ⟨hr, hs, hU, hI, ho⟩)⟩

/-- The ways `CreateStaff` ends once the avatar is set. -/
theorem CreateStaff_paths (c : Env) (w : World) (user : RegisterStaffParams) (a : String)
    (ha : user.UserInfo.Avatar = some a) :
    (∃ e,
        (CreateStaff c w user).2.since w = [.daoCreate (staffRow c user a) (some e)] ∧
        (CreateStaff c w user).2.users = w.users ∧
        (CreateStaff c w user).1 = .returned (c.genUUID, 0, some e))
    ∨ (∃ e,
        remoteError (c.registerUser (registerParam c c.genUUID user.UserInfo.Nickname)
          (openIMHost c)) = some e ∧
        (CreateStaff c w user).2.since w
          = [.daoCreate (staffRow c user a) none,
             .daoFindByUUID c.genUUID
               (SysUserDao.findByUUID c (w.users ++ [w.stored (staffRow c user a)]) c.genUUID).1
               (SysUserDao.findByUUID c (w.users ++ [w.stored (staffRow c user a)]) c.genUUID).2,
             .registerUser (registerParam c c.genUUID user.UserInfo.Nickname) (openIMHost c)
               (c.registerUser (registerParam c c.genUUID user.UserInfo.Nickname)
                 (openIMHost c)).1
               (c.registerUser (registerParam c c.genUUID user.UserInfo.Nickname)
                 (openIMHost c)).2,
             .daoDelete
               (SysUserDao.findByUUID c (w.users ++ [w.stored (staffRow c user a)]) c.genUUID).1
               c.deleteFault])
    ∨ (remoteError (c.registerUser (registerParam c c.genUUID user.UserInfo.Nickname)
          (openIMHost c)) = none ∧
        (CreateStaff c w user).2.since w
          = [.daoCreate (staffRow c user a) none,
             .daoFindByUUID c.genUUID
               (SysUserDao.findByUUID c (w.users ++ [w.stored (staffRow c user a)]) c.genUUID).1
               (SysUserDao.findByUUID c (w.users ++ [w.stored (staffRow c user a)]) c.genUUID).2,
             .registerUser (registerParam c c.genUUID user.UserInfo.Nickname) (openIMHost c)
               (c.registerUser (registerParam c c.genUUID user.UserInfo.Nickname)
                 (openIMHost c)).1
               (c.registerUser (registerParam c c.genUUID user.UserInfo.Nickname)
                 (openIMHost c)).2] ∧
        (CreateStaff c w user).2.users = w.users ++ [w.stored (staffRow c user a)] ∧
        (CreateStaff c w user).2.imUsers = w.imUsers ++ [c.genUUID] ∧
        (CreateStaff c w user).1 = .returned (c.genUUID,
          (SysUserDao.findByUUID c (w.users ++ [w.stored (staffRow c user a)]) c.genUUID).1.Id,
          none)) := by
  rw [CreateStaff_eq c w user a ha]
  rcases tail_paths c w w [] (staffRow c user a) user.UserInfo.Nickname
      rfl rfl rfl (by simp) with
    ⟨e, hs, hU, -, -, -, ho⟩ | ⟨e, hr, hs, -⟩ | ⟨hr, hs, hU, -, hI, -, ho⟩
  · exact Or.inl ⟨e, by simpa using hs, hU, ho⟩
  · exact Or.inr (Or.inl ⟨e, hr, by simpa using hs⟩)
  · exact Or.inr (Or.inr ⟨hr, by simpa using hs, hU, hI, ho⟩)

theorem getUserIMToken_eq (c : Env) (w : World) (p : UserTokenParams) :
    getUserIMToken c w p
      = ((match tokenError (c.getUserToken p (openIMHost c)) with
            | some _ => TokenData.zero
            | none => (c.getUserToken p (openIMHost c)).1.Data,
          tokenError (c.getUserToken p (openIMHost c))),
         w.log (.getUserToken p (openIMHost c) (c.getUserToken p (openIMHost c)).1
           (c.getUserToken p (openIMHost c)).2)) := by
  unfold getUserIMToken auth.GetUserToken tokenError
  cases h : (c.getUserToken p (openIMHost c)).2 with
  | some e => simp [h]
  | none =>
    by_cases h0 : (c.getUserToken p (openIMHost c)).1.ErrCode = 0 <;> simp [h, h0]

theorem tokenError_some_iff (r : UserTokenResp × Error) :
    (∃ e, tokenError r = some e) ↔ (r.2 ≠ none ∨ r.1.ErrCode ≠ 0) := by
  unfold tokenError
  cases h : r.2 with
  | some e => simp
  | none => by_cases h0 : r.1.ErrCode = 0 <;> simp [h0]

theorem tokenError_none_iff (r : UserTokenResp × Error) :
    tokenError r = none ↔ (r.2 = none ∧ r.1.ErrCode = 0) := by
  unfold tokenError
  cases h : r.2 with
  | some e => simp
  | none => by_cases h0 : r.1.ErrCode = 0 <;> simp [h0]

/-- A login leaves the store, the communities and the remote identities as
they were. -/
theorem LoginWithAccount_store (c : Env) (w : World) (param : LoginParamsWithAccount) :
    (LoginWithAccount c w param).2.users = w.users ∧
    (LoginWithAccount c w param).2.nextId = w.nextId ∧
    (LoginWithAccount c w param).2.communities = w.communities ∧
    (LoginWithAccount c w param).2.imUsers = w.imUsers := by
  unfold LoginWithAccount
  simp only [SysUserDao.FindFirstByEmail, internal_utils.GenerateJwtToken, getUserIMToken_eq,
    World.log]
  split
  · exact ⟨rfl, rfl, rfl, rfl⟩
  · split
    · exact ⟨rfl, rfl, rfl, rfl⟩
    · split
      · exact ⟨rfl, rfl, rfl, rfl⟩
      · split <;> exact ⟨rfl, rfl, rfl, rfl⟩

/-- The five ways a login ends, with the result and the calls made in each:
the lookup fails; the password does not match; the token issuer fails; the
remote token fetch fails; both tokens are there. `u` is the record the lookup
gave. -/
theorem LoginWithAccount_paths (c : Env) (w : World) (param : LoginParamsWithAccount) :
    (∃ e, (SysUserDao.findByEmail c w.users param.Email).2 = some e ∧
        (LoginWithAccount c w param).1 = (UserTokenResponse.zero, some e) ∧
        (LoginWithAccount c w param).2.since w
          = [.daoFindByEmail param.Email (SysUserDao.findByEmail c w.users param.Email).1
              (some e)])
    ∨ ((SysUserDao.findByEmail c w.users param.Email).2 = none ∧
        c.comparePassword param.Password
          (SysUserDao.findByEmail c w.users param.Email).1.Password = false ∧
        (LoginWithAccount c w param).1
          = (UserTokenResponse.zero, some "password is not correct") ∧
        (LoginWithAccount c w param).2.since w
          = [.daoFindByEmail param.Email (SysUserDao.findByEmail c w.users param.Email).1 none])
    ∨ (∃ e, (SysUserDao.findByEmail c w.users param.Email).2 = none ∧
        c.comparePassword param.Password
          (SysUserDao.findByEmail c w.users param.Email).1.Password = true ∧
        (c.generateJwtToken (SysUserDao.findByEmail c w.users param.Email).1.UserBase.UUID
          (SysUserDao.findByEmail c w.users param.Email).1.CommunityId).2.2 = some e ∧
        (LoginWithAccount c w param).1 = (UserTokenResponse.zero, some e) ∧
        (LoginWithAccount c w param).2.since w
          = [.daoFindByEmail param.Email (SysUserDao.findByEmail c w.users param.Email).1 none,
             .generateJwt (SysUserDao.findByEmail c w.users param.Email).1.UserBase.UUID
               (SysUserDao.findByEmail c w.users param.Email).1.CommunityId
               (c.generateJwtToken (SysUserDao.findByEmail c w.users param.Email).1.UserBase.UUID
                 (SysUserDao.findByEmail c w.users param.Email).1.CommunityId).1
               (c.generateJwtToken (SysUserDao.findByEmail c w.users param.Email).1.UserBase.UUID
                 (SysUserDao.findByEmail c w.users param.Email).1.CommunityId).2.1
               (some e)])
    ∨ (∃ e, (SysUserDao.findByEmail c w.users param.Email).2 = none ∧
        c.comparePassword param.Password
          (SysUserDao.findByEmail c w.users param.Email).1.Password = true ∧
        (c.generateJwtToken (SysUserDao.findByEmail c w.users param.Email).1.UserBase.UUID
          (SysUserDao.findByEmail c w.users param.Email).1.CommunityId).2.2 = none ∧
        tokenError (c.getUserToken
          { Secret := c.Config.Secret,
            UserID := (SysUserDao.findByEmail c w.users param.Email).1.UserBase.UUID,
            PlatformID := uint c.Config.PlatformID } (openIMHost c)) = some e ∧
        (LoginWithAccount c w param).1 = (UserTokenResponse.zero, some e) ∧
        (LoginWithAccount c w param).2.since w
          = [.daoFindByEmail param.Email (SysUserDao.findByEmail c w.users param.Email).1 none,
             .generateJwt (SysUserDao.findByEmail c w.users param.Email).1.UserBase.UUID
               (SysUserDao.findByEmail c w.users param.Email).1.CommunityId
               (c.generateJwtToken (SysUserDao.findByEmail c w.users param.Email).1.UserBase.UUID
                 (SysUserDao.findByEmail c w.users param.Email).1.CommunityId).1
               (c.generateJwtToken (SysUserDao.findByEmail c w.users param.Email).1.UserBase.UUID
                 (SysUserDao.findByEmail c w.users param.Email).1.CommunityId).2.1
               none,
             .getUserToken
               { Secret := c.Config.Secret,
                 UserID := (SysUserDao.findByEmail c w.users param.Email).1.UserBase.UUID,
                 PlatformID := uint c.Config.PlatformID } (openIMHost c)
               (c.getUserToken
                 { Secret := c.Config.Secret,
                   UserID := (SysUserDao.findByEmail c w.users param.Email).1.UserBase.UUID,
                   PlatformID := uint c.Config.PlatformID } (openIMHost c)).1
               (c.getUserToken
                 { Secret := c.Config.Secret,
                   UserID := (SysUserDao.findByEmail c w.users param.Email).1.UserBase.UUID,
                   PlatformID := uint c.Config.PlatformID } (openIMHost c)).2])
    ∨ ((SysUserDao.findByEmail c w.users param.Email).2 = none ∧
        c.comparePassword param.Password
          (SysUserDao.findByEmail c w.users param.Email).1.Password = true ∧
        (c.generateJwtToken (SysUserDao.findByEmail c w.users param.Email).1.UserBase.UUID
          (SysUserDao.findByEmail c w.users param.Email).1.CommunityId).2.2 = none ∧
        tokenError (c.getUserToken
          { Secret := c.Config.Secret,
            UserID := (SysUserDao.findByEmail c w.users param.Email).1.UserBase.UUID,
            PlatformID := uint c.Config.PlatformID } (openIMHost c)) = none ∧
        (LoginWithAccount c w param).1
          = ({ UUID := (SysUserDao.findByEmail c w.users param.Email).1.UserBase.UUID,
               KFToken := some
                 { Token := (c.generateJwtToken
                     (SysUserDao.findByEmail c w.users param.Email).1.UserBase.UUID
                     (SysUserDao.findByEmail c w.users param.Email).1.CommunityId).1,
                   ExpireTimeSeconds := (c.generateJwtToken
                     (SysUserDao.findByEmail c w.users param.Email).1.UserBase.UUID
                     (SysUserDao.findByEmail c w.users param.Email).1.CommunityId).2.1 },
               IMToken := some
                 { Token := (c.getUserToken
                     { Secret := c.Config.Secret,
                       UserID := (SysUserDao.findByEmail c w.users param.Email).1.UserBase.UUID,
                       PlatformID := uint c.Config.PlatformID } (openIMHost c)).1.Data.Token,
                   ExpireTimeSeconds := (c.getUserToken
                     { Secret := c.Config.Secret,
                       UserID := (SysUserDao.findByEmail c w.users param.Email).1.UserBase.UUID,
                       PlatformID := uint c.Config.PlatformID }
                     (openIMHost c)).1.Data.ExpireTimeSeconds } },
             none) ∧
        (LoginWithAccount c w param).2.since w
          = [.daoFindByEmail param.Email (SysUserDao.findByEmail c w.users param.Email).1 none,
             .generateJwt (SysUserDao.findByEmail c w.users param.Email).1.UserBase.UUID
               (SysUserDao.findByEmail c w.users param.Email).1.CommunityId
               (c.generateJwtToken (SysUserDao.findByEmail c w.users param.Email).1.UserBase.UUID
                 (SysUserDao.findByEmail c w.users param.Email).1.CommunityId).1
               (c.generateJwtToken (SysUserDao.findByEmail c w.users param.Email).1.UserBase.UUID
                 (SysUserDao.findByEmail c w.users param.Email).1.CommunityId).2.1
               none,
             .getUserToken
               { Secret := c.Config.Secret,
                 UserID := (SysUserDao.findByEmail c w.users param.Email).1.UserBase.UUID,
                 PlatformID := uint c.Config.PlatformID } (openIMHost c)
               (c.getUserToken
                 { Secret := c.Config.Secret,
                   UserID := (SysUserDao.findByEmail c w.users param.Email).1.UserBase.UUID,
                   PlatformID := uint c.Config.PlatformID } (openIMHost c)).1
               (c.getUserToken
                 { Secret := c.Config.Secret,
                   UserID := (SysUserDao.findByEmail c w.users param.Email).1.UserBase.UUID,
                   PlatformID := uint c.Config.PlatformID } (openIMHost c)).2]) := by
  unfold LoginWithAccount
  simp only [SysUserDao.FindFirstByEmail, internal_utils.GenerateJwtToken, getUserIMToken_eq,
    World.log, utils.ComparePassword]
  cases hf : (SysUserDao.findByEmail c w.users param.Email).2 with
  | some e =>
    left
    exact ⟨e, rfl, rfl, since_of_trace _ _ _ rfl⟩
  | none =>
    right
    cases hp : c.comparePassword param.Password
        (SysUserDao.findByEmail c w.users param.Email).1.Password with
    | false =>
      left
      refine ⟨rfl, rfl, ?_, ?_⟩
      · simp
      · simp only [Bool.not_false, if_true]
        exact since_of_trace _ _ _ rfl
    | true =>
      right
      simp only [Bool.not_true, Bool.false_eq_true, if_false]
      cases hj : (c.generateJwtToken
          (SysUserDao.findByEmail c w.users param.Email).1.UserBase.UUID
          (SysUserDao.findByEmail c w.users param.Email).1.CommunityId).2.2 with
      | some e =>
        left
        refine ⟨e, ?_, ?_, ?_, ?_, ?_⟩ <;>
          first | trivial | rfl | exact since_of_trace _ _ _ (by simp)
      | none =>
        right
        cases ht : tokenError (c.getUserToken
            { Secret := c.Config.Secret,
              UserID := (SysUserDao.findByEmail c w.users param.Email).1.UserBase.UUID,
              PlatformID := uint c.Config.PlatformID } (openIMHost c)) with
        | some e =>
          left
          refine ⟨e, ?_, ?_, ?_, ?_, ?_, ?_⟩ <;>
            first | trivial | rfl | exact since_of_trace _ _ _ (by simp)
        | none =>
          right
          refine ⟨?_, ?_, ?_, ?_, ?_, ?_⟩ <;>
            first | trivial | rfl | exact since_of_trace _ _ _ (by simp)

theorem findByEmail_ok (c : Env) (users : List SysUser) (email : String)
    (h : (SysUserDao.findByEmail c users email).2 = none) :
    (SysUserDao.findByEmail c users email).1 ∈ users ∧
    (SysUserDao.findByEmail c users email).1.UserBase.Email = email := by
  unfold SysUserDao.findByEmail at h ⊢
  cases hf : c.findByEmailFault with
  | some e => simp [hf] at h
  | none =>
    simp only [hf] at h ⊢
    cases hl : List.find? (fun r => decide (r.UserBase.Email = email)) users with
    | none => simp [hl] at h
    | some u =>
      simp only
      exact ⟨List.mem_of_find?_eq_some hl, by simpa using List.find?_some hl⟩

theorem uint_of_nonneg (x : Int) (h0 : 0 ≤ x) (h1 : x < 2 ^ 64) : (uint x : Int) = x := by
  unfold uint
  rw [Int.emod_eq_of_lt h0 h1]
  exact Int.toNat_of_nonneg h0

/-! ## The claims -/

/-- C1 (as stated, refuted): a staff registration in which the row is created
and the remote registration answers code 500 leaves the row in the store when
the compensating delete reports an error, and also when the re-read of the
row reports an error (the delete is then addressed to the zero record). -/
theorem C1_counterexample :
    (Event.daoCreate (staffRow envDeleteFails staffReq "") none
        ∈ (Register envDeleteFails w0 (.staff staffReq)).2.since w0 ∧
      Event.registerUser (registerParam envDeleteFails "u-5" "A") (openIMHost envDeleteFails)
          { ErrCode := 500, ErrMsg := "remote says no" } none
        ∈ (Register envDeleteFails w0 (.staff staffReq)).2.since w0 ∧
      (Register envDeleteFails w0 (.staff staffReq)).2.hasUser "u-5") ∧
    (Event.daoCreate (staffRow envRereadFailsRemoteFails staffReq "") none
        ∈ (Register envRereadFailsRemoteFails w0 (.staff staffReq)).2.since w0 ∧
      Event.registerUser (registerParam envRereadFailsRemoteFails "u-5" "A")
          (openIMHost envRereadFailsRemoteFails)
          { ErrCode := 500, ErrMsg := "remote says no" } none
        ∈ (Register envRereadFailsRemoteFails w0 (.staff staffReq)).2.since w0 ∧
      (Register envRereadFailsRemoteFails w0 (.staff staffReq)).2.hasUser "u-5") := by
  refine ⟨⟨?_, ?_, by decide⟩, ⟨?_, ?_, by decide⟩⟩ <;>
    (rw [List.mem_iff_get]; first
      | exact ⟨⟨0, by decide⟩, by decide⟩
      | exact ⟨⟨2, by decide⟩, by decide⟩)

/-- C1 (amended): in every CreateAdmin or CreateStaff call in which the local
row was created and the remote registration fails (transport error or non-zero
application code), if the generated identifier is new to the store and the
re-read and the compensating delete report no error, then no row with the
generated identifier is in the store when the call returns. -/
theorem C1_compensation_removes_row (c : Env) (w : World) (req : RegisterRequest)
    (row : SysUser) (p : RegisterUserParams) (host : String) (resp : RegisterUserResp)
    (err : Error)
    (hcreated : Event.daoCreate row none ∈ (Register c w req).2.since w)
    (hfailed : Event.registerUser p host resp err ∈ (Register c w req).2.since w)
    (hcode : err ≠ none ∨ resp.ErrCode ≠ 0)
    (hfresh : ¬ w.hasUser c.genUUID)
    (hreread : ∀ u e, Event.daoFindByUUID c.genUUID u e ∈ (Register c w req).2.since w → e = none)
    (hdelete : ∀ u e, Event.daoDelete u e ∈ (Register c w req).2.since w → e = none) :
    ¬ (Register c w req).2.hasUser c.genUUID := by
  have hfr : ∀ r ∈ w.users, r.UserBase.UUID ≠ c.genUUID :=
    fun r hr hEq => hfresh ⟨r, hr, hEq⟩
  obtain ⟨pre, hop, hpath⟩ := Register_paths c w req
  rcases hpath with ⟨hs, -⟩ | ⟨row1, e, -, -, hs, -⟩ |
      ⟨row1, nick, e, -, hrow, hr, hs, hU, -⟩ | ⟨row1, nick, -, -, hr, hs, -⟩
  · -- the call stopped in its opening: no row was created
    rw [hs] at hcreated
    exact absurd hcreated (opening_not_daoCreate hop _ _)
  · -- the store rejected the row
    rw [hs] at hcreated
    simp [opening_not_daoCreate hop] at hcreated
  · -- the remote registration failed and the delete was issued
    rw [hs] at hreread hdelete
    have hf := hreread _ _
      (List.mem_append_right pre (List.mem_cons_of_mem _ (List.mem_cons_self _ _)))
    have hd := hdelete _ _
      (List.mem_append_right pre (List.mem_cons_of_mem _ (List.mem_cons_of_mem _
        (List.mem_cons_of_mem _ (List.mem_cons_self _ _)))))
    have hfound := findByUUID_fresh c w.users (w.stored row1) c.genUUID hfr
      (by simpa [World.stored] using hrow) hf
    simp only [hd, hfound] at hU
    rintro ⟨r, hr, hEq⟩
    rw [hU] at hr
    simp only [List.mem_filter, List.mem_append, List.mem_singleton, decide_eq_true_eq] at hr
    rcases hr with ⟨hr | hr, hne⟩
    · exact hfr r hr hEq
    · exact hne (by rw [hr])
  · -- the remote registration succeeded: no failing registration event
    rw [hs] at hfailed
    simp only [List.mem_append, List.mem_cons, List.mem_singleton, List.not_mem_nil,
      or_false, opening_not_registerUser hop, false_or, reduceCtorEq] at hfailed
    simp only [Event.registerUser.injEq] at hfailed
    obtain ⟨-, -, h3, h4⟩ := hfailed
    rw [remoteError_none_iff] at hr
    subst h3 h4
    rcases hcode with h | h
    · exact absurd hr.1 h
    · exact absurd hr.2 h

/-- C1 (witness): the amended claim at a staff registration whose remote
registration answers code 500 while the store works. -/
theorem C1_compensation_removes_row_witness :
    ¬ (Register envRemoteFails w0 (.staff staffReq)).2.hasUser envRemoteFails.genUUID :=
  C1_compensation_removes_row envRemoteFails w0 (.staff staffReq)
    (staffRow envRemoteFails staffReq "")
    (registerParam envRemoteFails "u-5" "A") (openIMHost envRemoteFails)
    { ErrCode := 500, ErrMsg := "remote says no" } none
    (by rw [List.mem_iff_get]; exact ⟨⟨0, by decide⟩, by decide⟩)
    (by rw [List.mem_iff_get]; exact ⟨⟨2, by decide⟩, by decide⟩)
    (by decide) (by decide)
    (by
      have h : (Register envRemoteFails w0 (.staff staffReq)).2.since w0
          = [.daoCreate (staffRow envRemoteFails staffReq "") none,
             .daoFindByUUID "u-5" (w0.stored (staffRow envRemoteFails staffReq "")) none,
             .registerUser (registerParam envRemoteFails "u-5" "A") (openIMHost envRemoteFails)
               { ErrCode := 500, ErrMsg := "remote says no" } none,
             .daoDelete (w0.stored (staffRow envRemoteFails staffReq "")) none] := by decide
      intro u e hm
      rw [h] at hm
      simp at hm
      exact hm.2.2)
    (by
      have h : (Register envRemoteFails w0 (.staff staffReq)).2.since w0
          = [.daoCreate (staffRow envRemoteFails staffReq "") none,
             .daoFindByUUID "u-5" (w0.stored (staffRow envRemoteFails staffReq "")) none,
             .registerUser (registerParam envRemoteFails "u-5" "A") (openIMHost envRemoteFails)
               { ErrCode := 500, ErrMsg := "remote says no" } none,
             .daoDelete (w0.stored (staffRow envRemoteFails staffReq "")) none] := by decide
      intro u e hm
      rw [h] at hm
      simp at hm
      exact hm.2)

/-- C2 (as stated, refuted): a staff registration whose remote registration
answers code 500 and whose re-read reports an error returns the numeric id 0
with the error, while the store gave the row the id 5. -/
theorem C2_counterexample :
    Event.registerUser (registerParam envRereadFailsRemoteFails "u-5" "A")
        (openIMHost envRereadFailsRemoteFails)
        { ErrCode := 500, ErrMsg := "remote says no" } none
      ∈ (Register envRereadFailsRemoteFails w0 (.staff staffReq)).2.since w0 ∧
    (Register envRereadFailsRemoteFails w0 (.staff staffReq)).1
      = .returned ("u-5", 0, some "remote says no") ∧
    (∃ r ∈ (Register envRereadFailsRemoteFails w0 (.staff staffReq)).2.users,
      r.UserBase.UUID = "u-5" ∧ r.Id = 5) := by
  refine ⟨?_, by decide, by decide⟩
  rw [List.mem_iff_get]; exact ⟨⟨2, by decide⟩, by decide⟩

/-- C2 (amended): every CreateAdmin or CreateStaff call whose remote
registration fails (transport error or non-zero application code) returns the
generated identifier and the numeric id of the record the re-read gave,
together with a non-nil error, the one made of the remote answer; that id is
the row's store-assigned id when the identifier is new to the store and the
re-read reports no error. And `registerUserToOpenIM` returns ok = false
exactly when it returns a non-nil error. -/
theorem C2_remote_failure_returns_error (c : Env) (w : World) (req : RegisterRequest)
    (p : RegisterUserParams) (host : String) (resp : RegisterUserResp) (err : Error)
    (hfailed : Event.registerUser p host resp err ∈ (Register c w req).2.since w)
    (hcode : err ≠ none ∨ resp.ErrCode ≠ 0) :
    (∃ u ferr e, Event.daoFindByUUID c.genUUID u ferr ∈ (Register c w req).2.since w ∧
        (Register c w req).1 = .returned (c.genUUID, u.Id, some e) ∧
        remoteError (resp, err) = some e ∧
        (¬ w.hasUser c.genUUID → ferr = none →
          u.Id = w.nextId ∧
          ∃ row, Event.daoCreate row none ∈ (Register c w req).2.since w ∧ u = w.stored row)) ∧
    (∀ (w2 : World) (p2 : RegisterUserParams),
        (registerUserToOpenIM c w2 p2).1.1 = false ↔ (registerUserToOpenIM c w2 p2).1.2 ≠ none) := by
  constructor
  · obtain ⟨pre, hop, hpath⟩ := Register_paths c w req
    rcases hpath with ⟨hs, -⟩ | ⟨row1, e, -, -, hs, -⟩ |
        ⟨row1, nick, e, -, hrow, hr, hs, -, -, -, ho⟩ | ⟨row1, nick, -, -, hr, hs, -⟩
    · rw [hs] at hfailed
      exact absurd hfailed (opening_not_registerUser hop _ _ _ _)
    · rw [hs] at hfailed
      simp [opening_not_registerUser hop] at hfailed
    · rw [hs] at hfailed
      simp only [List.mem_append, List.mem_cons, List.mem_singleton, List.not_mem_nil,
        or_false, opening_not_registerUser hop, false_or, reduceCtorEq] at hfailed
      simp only [Event.registerUser.injEq] at hfailed
      obtain ⟨-, -, h3, h4⟩ := hfailed
      refine ⟨(SysUserDao.findByUUID c (w.users ++ [w.stored row1]) c.genUUID).1,
        (SysUserDao.findByUUID c (w.users ++ [w.stored row1]) c.genUUID).2, e, ?_, ho, ?_, ?_⟩
      · rw [hs]
        exact List.mem_append_right pre (List.mem_cons_of_mem _ (List.mem_cons_self _ _))
      · rw [h3, h4]; exact hr
      · intro hfresh hf
        have hfr : ∀ r ∈ w.users, r.UserBase.UUID ≠ c.genUUID :=
          fun r hr hEq => hfresh ⟨r, hr, hEq⟩
        have hfound := findByUUID_fresh c w.users (w.stored row1) c.genUUID hfr
          (by simpa [World.stored] using hrow) hf
        refine ⟨by rw [hfound]; rfl, row1, ?_, hfound⟩
        rw [hs]
        exact List.mem_append_right pre (List.mem_cons_self _ _)
    · rw [hs] at hfailed
      simp only [List.mem_append, List.mem_cons, List.mem_singleton, List.not_mem_nil,
        or_false, opening_not_registerUser hop, false_or, reduceCtorEq] at hfailed
      simp only [Event.registerUser.injEq] at hfailed
      obtain ⟨-, -, h3, h4⟩ := hfailed
      rw [remoteError_none_iff] at hr
      subst h3 h4
      rcases hcode with h | h
      · exact absurd hr.1 h
      · exact absurd hr.2 h
  · intro w2 p2
    rw [registerUserToOpenIM_eq]
    cases h : remoteError (c.registerUser p2 (openIMHost c)) <;> simp

/-- C2 (witness): the amended claim at a staff registration whose remote
registration answers code 500. -/
theorem C2_remote_failure_returns_error_witness :
    (∃ u ferr e, Event.daoFindByUUID envRemoteFails.genUUID u ferr
          ∈ (Register envRemoteFails w0 (.staff staffReq)).2.since w0 ∧
        (Register envRemoteFails w0 (.staff staffReq)).1
          = .returned (envRemoteFails.genUUID, u.Id, some e) ∧
        remoteError (({ ErrCode := 500, ErrMsg := "remote says no" } : RegisterUserResp), none)
          = some e ∧
        (¬ w0.hasUser envRemoteFails.genUUID → ferr = none →
          u.Id = w0.nextId ∧
          ∃ row, Event.daoCreate row none ∈ (Register envRemoteFails w0 (.staff staffReq)).2.since w0 ∧
            u = w0.stored row)) ∧
    (∀ (w2 : World) (p2 : RegisterUserParams),
        (registerUserToOpenIM envRemoteFails w2 p2).1.1 = false ↔
          (registerUserToOpenIM envRemoteFails w2 p2).1.2 ≠ none) :=
  C2_remote_failure_returns_error envRemoteFails w0 (.staff staffReq)
    (registerParam envRemoteFails "u-5" "A") (openIMHost envRemoteFails)
    { ErrCode := 500, ErrMsg := "remote says no" } none
    (by rw [List.mem_iff_get]; exact ⟨⟨2, by decide⟩, by decide⟩)
    (Or.inr (by decide))

/-- C3: a CreateAdmin request whose verification code does not check out
against the email returns ("", 0, error) with a non-nil error and writes
nothing: the store, the communities and the remote identities are as before,
and the only collaborator call made is the verification check (no community
creation, no store call, no remote registration). -/
theorem C3_invalid_code_writes_nothing (c : Env) (w : World) (user : RegisterAdminParams)
    (hcode : c.checkCode user.UserInfo.Email user.Code = false) :
    (CreateAdmin c w user).1 = .returned ("", 0, some "code is not valid") ∧
    (CreateAdmin c w user).2.users = w.users ∧
    (CreateAdmin c w user).2.nextId = w.nextId ∧
    (CreateAdmin c w user).2.communities = w.communities ∧
    (CreateAdmin c w user).2.imUsers = w.imUsers ∧
    (CreateAdmin c w user).2.since w = [.checkCode user.UserInfo.Email user.Code false] := by
  rw [CreateAdmin_badCode c w user hcode]
  refine ⟨rfl, rfl, rfl, rfl, rfl, ?_⟩
  exact since_of_trace _ _ _ rfl

/-- C3 (witness): an admin registration with the code "0000" where "1234" was
sent. -/
theorem C3_invalid_code_writes_nothing_witness :
    (CreateAdmin env0 w0 adminReqBadCode).1 = .returned ("", 0, some "code is not valid") ∧
    (CreateAdmin env0 w0 adminReqBadCode).2.users = w0.users ∧
    (CreateAdmin env0 w0 adminReqBadCode).2.nextId = w0.nextId ∧
    (CreateAdmin env0 w0 adminReqBadCode).2.communities = w0.communities ∧
    (CreateAdmin env0 w0 adminReqBadCode).2.imUsers = w0.imUsers ∧
    (CreateAdmin env0 w0 adminReqBadCode).2.since w0
      = [.checkCode adminReqBadCode.UserInfo.Email adminReqBadCode.Code false] :=
  C3_invalid_code_writes_nothing env0 w0 adminReqBadCode (by decide)

/-- C4: after any CreateAdmin or CreateStaff call, whatever its outcome: every
remote registration call of the call is for the generated identifier and
comes after a store create of a row with that identifier which reported no
error; every delete comes after a remote registration that failed; every
identifier the call registered remotely has a local row when the call
returns; and, on a store whose ids the store handed out and to which the
generated identifier is new, if every remotely registered identifier had a
local row before the call, so it is after the call. -/
theorem C4_remote_registration_has_local_row (c : Env) (w : World) (req : RegisterRequest) :
    (∀ pre p host resp err post,
        (Register c w req).2.since w = pre ++ Event.registerUser p host resp err :: post →
        p.Users.map (fun u => u.UserID) = [c.genUUID] ∧
        ∃ row, row.UserBase.UUID = c.genUUID ∧ Event.daoCreate row none ∈ pre) ∧
    (∀ pre u derr post,
        (Register c w req).2.since w = pre ++ Event.daoDelete u derr :: post →
        ∃ p host resp err, Event.registerUser p host resp err ∈ pre ∧
          (err ≠ none ∨ resp.ErrCode ≠ 0)) ∧
    (∀ id ∈ (Register c w req).2.imUsers, id ∉ w.imUsers → (Register c w req).2.hasUser id) ∧
    (w.wellFormed → ¬ w.hasUser c.genUUID → w.remoteHasLocal →
        (Register c w req).2.remoteHasLocal) := by
  obtain ⟨pre0, hop, hpath⟩ := Register_paths c w req
  rcases hpath with ⟨hs, hU, -, hI, -⟩ | ⟨row1, e, -, -, hs, hU, -, hI, -⟩ |
      ⟨row1, nick, e, -, hrow, hr, hs, hU, -, hI, -⟩ | ⟨row1, nick, -, hrow, hr, hs, hU, -, hI, -⟩
  · -- stopped in the opening
    refine ⟨?_, ?_, ?_, ?_⟩
    · intro pre p host resp err post h
      rw [hs] at h
      have : Event.registerUser p host resp err ∈ pre0 := by rw [h]; simp
      exact absurd this (opening_not_registerUser hop _ _ _ _)
    · intro pre u derr post h
      rw [hs] at h
      have : Event.daoDelete u derr ∈ pre0 := by rw [h]; simp
      exact absurd this (opening_not_daoDelete hop _ _)
    · intro id hid hnot; rw [hI] at hid; exact absurd hid hnot
    · intro _ _ hinv id hid
      rw [hI] at hid
      obtain ⟨r, hr, hEq⟩ := hinv id hid
      exact ⟨r, by rw [hU]; exact hr, hEq⟩
  · -- the store rejected the row
    refine ⟨?_, ?_, ?_, ?_⟩
    · intro pre p host resp err post h
      rw [hs] at h
      obtain ⟨mid, -, h2⟩ := split_after_opening hop (by simp [Event.opening]) h
      rcases mid with _ | ⟨a, _ | ⟨b, t⟩⟩ <;> simp at h2
    · intro pre u derr post h
      rw [hs] at h
      obtain ⟨mid, -, h2⟩ := split_after_opening hop (by simp [Event.opening]) h
      rcases mid with _ | ⟨a, _ | ⟨b, t⟩⟩ <;> simp at h2
    · intro id hid hnot; rw [hI] at hid; exact absurd hid hnot
    · intro _ _ hinv id hid
      rw [hI] at hid
      obtain ⟨r, hr, hEq⟩ := hinv id hid
      exact ⟨r, by rw [hU]; exact hr, hEq⟩
  · -- the remote registration failed, the delete was issued
    refine ⟨?_, ?_, ?_, ?_⟩
    · intro pre p host resp err post h
      rw [hs] at h
      obtain ⟨mid, h1, h2⟩ := split_after_opening hop (by simp [Event.opening]) h
      rcases mid with _ | ⟨a, _ | ⟨b, _ | ⟨d, _ | ⟨f, t⟩⟩⟩⟩ <;> simp at h2
      obtain ⟨ha, hb, ⟨hp, -⟩, -⟩ := h2
      subst ha hb hp
      exact ⟨by simp [registerParam], row1, hrow, by rw [h1]; simp⟩
    · intro pre u derr post h
      rw [hs] at h
      obtain ⟨mid, h1, h2⟩ := split_after_opening hop (by simp [Event.opening]) h
      rcases mid with _ | ⟨a, _ | ⟨b, _ | ⟨d, _ | ⟨f, t⟩⟩⟩⟩ <;> simp at h2
      obtain ⟨ha, hb, hd, -⟩ := h2
      subst ha hb hd
      refine ⟨registerParam c c.genUUID nick, openIMHost c,
        (c.registerUser (registerParam c c.genUUID nick) (openIMHost c)).1,
        (c.registerUser (registerParam c c.genUUID nick) (openIMHost c)).2,
        by rw [h1]; simp, ?_⟩
      exact (remoteError_some_iff _).mp ⟨e, hr⟩
    · intro id hid hnot; rw [hI] at hid; exact absurd hid hnot
    · intro hwf hfresh hinv id hid
      rw [hI] at hid
      obtain ⟨r, hr0, hEq⟩ := hinv id hid
      refine ⟨r, ?_, hEq⟩
      rw [hU]
      cases hd : c.deleteFault with
      | some e1 => simp [hr0]
      | none =>
        simp only [List.mem_filter, List.mem_append, List.mem_singleton, decide_eq_true_eq]
        refine ⟨Or.inl hr0, ?_⟩
        have hfr : ∀ r ∈ w.users, r.UserBase.UUID ≠ c.genUUID :=
          fun r hr hEq => hfresh ⟨r, hr, hEq⟩
        by_cases hf : (SysUserDao.findByUUID c (w.users ++ [w.stored row1]) c.genUUID).2 = none
        · rw [findByUUID_fresh c w.users (w.stored row1) c.genUUID hfr
            (by simpa [World.stored] using hrow) hf]
          have := (hwf r hr0).2
          simp only [World.stored]
          omega
        · rw [findByUUID_fault c _ _ hf]
          have := (hwf r hr0).1
          simp only [SysUser.zero]
          omega
  · -- the remote registration succeeded
    refine ⟨?_, ?_, ?_, ?_⟩
    · intro pre p host resp err post h
      rw [hs] at h
      obtain ⟨mid, h1, h2⟩ := split_after_opening hop (by simp [Event.opening]) h
      rcases mid with _ | ⟨a, _ | ⟨b, _ | ⟨d, t⟩⟩⟩ <;> simp at h2
      obtain ⟨ha, hb, ⟨hp, -⟩, -⟩ := h2
      subst ha hb hp
      exact ⟨by simp [registerParam], row1, hrow, by rw [h1]; simp⟩
    · intro pre u derr post h
      rw [hs] at h
      obtain ⟨mid, h1, h2⟩ := split_after_opening hop (by simp [Event.opening]) h
      rcases mid with _ | ⟨a, _ | ⟨b, _ | ⟨d, t⟩⟩⟩ <;> simp at h2
    · intro id hid _
      rw [hI] at hid
      simp only [List.mem_append, List.mem_singleton] at hid
      refine ⟨w.stored row1, by rw [hU]; simp, ?_⟩
      rcases hid with hid | hid
      · exact absurd hid ‹id ∉ w.imUsers›
      · rw [hid]; simpa [World.stored] using hrow
    · intro _ _ hinv id hid
      rw [hI] at hid
      simp only [List.mem_append, List.mem_singleton] at hid
      rcases hid with hid | hid
      · obtain ⟨r, hr0, hEq⟩ := hinv id hid
        exact ⟨r, by rw [hU]; simp [hr0], hEq⟩
      · exact ⟨w.stored row1, by rw [hU]; simp, by rw [hid]; simpa [World.stored] using hrow⟩

/-- C4 (witness): after the staff registration of the specification's example
every remotely registered identifier has a local row. -/
theorem C4_remote_registration_has_local_row_witness :
    (Register env0 w0 (.staff staffReq)).2.remoteHasLocal :=
  (C4_remote_registration_has_local_row env0 w0 (.staff staffReq)).2.2.2
    (by decide) (by decide) (by decide)

/-- C5 (as stated, refuted): an admin registration with a valid code whose
community creation, local write and remote registration all succeed, but
whose re-read of the row reports an error, returns the numeric id 0 while the
store gave the row the id 5. -/
theorem C5_counterexample :
    envRereadFails.checkCode adminReq.UserInfo.Email adminReq.Code = true ∧
    (envRereadFails.createCommunity adminReq.CommunityInfo).2.2 = none ∧
    Event.daoCreate (adminRow envRereadFails adminReq "" 9) none
      ∈ (CreateAdmin envRereadFails w0 adminReq).2.since w0 ∧
    Event.registerUser (registerParam envRereadFails "u-5" "A") (openIMHost envRereadFails)
        { ErrCode := 0, ErrMsg := "" } none
      ∈ (CreateAdmin envRereadFails w0 adminReq).2.since w0 ∧
    (CreateAdmin envRereadFails w0 adminReq).1 = .returned ("u-5", 0, none) ∧
    (∃ r ∈ (CreateAdmin envRereadFails w0 adminReq).2.users,
      r.UserBase.UUID = "u-5" ∧ r.Id = 5) := by
  refine ⟨by decide, by decide, ?_, ?_, by decide, by decide⟩
  · rw [List.mem_iff_get]; exact ⟨⟨2, by decide⟩, by decide⟩
  · rw [List.mem_iff_get]; exact ⟨⟨4, by decide⟩, by decide⟩

/-- C5 (amended): for every CreateAdmin request with a valid verification
code, when community creation, the local write and the remote registration
all succeed, the generated identifier is new to the store and the re-read of
the row reports no error: the community is created under the id community
creation returned; the row handed to the store has the administrator flag
set, that community id and the generated identifier, and is in the store,
under the next numeric id, when the call returns; exactly one remote
registration call is issued, for the generated identifier and the nickname;
and the result is (identifier, the row's numeric id, nil). -/
theorem C5_admin_registration_succeeds (c : Env) (w : World) (user : RegisterAdminParams)
    (row : SysUser) (p : RegisterUserParams) (host : String) (resp : RegisterUserResp)
    (hcode : c.checkCode user.UserInfo.Email user.Code = true)
    (hcomm : (c.createCommunity user.CommunityInfo).2.2 = none)
    (hcreate : Event.daoCreate row none ∈ (CreateAdmin c w user).2.since w)
    (hreg : Event.registerUser p host resp none ∈ (CreateAdmin c w user).2.since w)
    (hzero : resp.ErrCode = 0)
    (hfresh : ¬ w.hasUser c.genUUID)
    (hreread : ∀ u e,
      Event.daoFindByUUID c.genUUID u e ∈ (CreateAdmin c w user).2.since w → e = none) :
    (∃ avatar, user.UserInfo.Avatar = some avatar ∧
      row = adminRow c user avatar (c.createCommunity user.CommunityInfo).2.1) ∧
    row.IsAdmin = true ∧
    row.CommunityId = (c.createCommunity user.CommunityInfo).2.1 ∧
    row.UserBase.UUID = c.genUUID ∧
    (CreateAdmin c w user).2.communities
      = w.communities ++ [((c.createCommunity user.CommunityInfo).2.1, user.CommunityInfo)] ∧
    (CreateAdmin c w user).2.users = w.users ++ [w.stored row] ∧
    (w.stored row).Id = w.nextId ∧
    (CreateAdmin c w user).2.imUsers = w.imUsers ++ [c.genUUID] ∧
    (CreateAdmin c w user).2.since w
      = [.checkCode user.UserInfo.Email user.Code true,
         .createCommunity user.CommunityInfo (c.createCommunity user.CommunityInfo).2.1 none,
         .daoCreate row none,
         .daoFindByUUID c.genUUID (w.stored row) none,
         .registerUser
           { Secret := c.Config.Secret,
             Users := [{ UserID := c.genUUID, Nickname := user.UserInfo.Nickname,
                         FaceURL := "" }] }
           (openIMHost c) resp none] ∧
    (CreateAdmin c w user).1 = .returned (c.genUUID, w.nextId, none) := by
  have hfr : ∀ r ∈ w.users, r.UserBase.UUID ≠ c.genUUID :=
    fun r hr hEq => hfresh ⟨r, hr, hEq⟩
  cases ha : user.UserInfo.Avatar with
  | none =>
    rw [CreateAdmin_nil c w user hcode hcomm ha,
      since_of_trace _ w [.checkCode user.UserInfo.Email user.Code true,
        .createCommunity user.CommunityInfo (c.createCommunity user.CommunityInfo).2.1 none]
        (by simp [World.afterCommunity])] at hcreate
    simp at hcreate
  | some a =>
    obtain ⟨hC, hpath⟩ := CreateAdmin_paths c w user a hcode hcomm ha
    rcases hpath with ⟨e, hs, -⟩ | ⟨e, hr, hs⟩ | ⟨hr, hs, hU, hI, ho⟩
    · rw [hs] at hcreate
      simp at hcreate
    · rw [hs] at hreg
      simp only [List.mem_cons, List.mem_singleton, reduceCtorEq, false_or,
        Event.registerUser.injEq, List.not_mem_nil, or_false] at hreg
      obtain ⟨-, -, h3, h4⟩ := hreg
      have := (remoteError_some_iff _).mp ⟨e, hr⟩
      rw [← h3, ← h4] at this
      rcases this with h | h
      · exact absurd rfl h
      · exact absurd hzero h
    · rw [hs] at hcreate hreg hreread
      simp only [List.mem_cons, List.mem_singleton, reduceCtorEq, false_or,
        Event.daoCreate.injEq, and_true, List.not_mem_nil, or_false] at hcreate
      simp only [List.mem_cons, List.mem_singleton, reduceCtorEq, false_or,
        Event.registerUser.injEq, List.not_mem_nil, or_false] at hreg
      obtain ⟨-, -, h3, h4⟩ := hreg
      have hf := hreread _ _ (List.mem_cons_of_mem _ (List.mem_cons_of_mem _
        (List.mem_cons_of_mem _ (List.mem_cons_self _ _))))
      subst hcreate
      have hfound := findByUUID_fresh c w.users
        (w.stored (adminRow c user a (c.createCommunity user.CommunityInfo).2.1)) c.genUUID hfr
        rfl hf
      rw [hfound] at hs ho
      rw [hf, ← h3, ← h4] at hs
      exact ⟨⟨a, rfl, rfl⟩, rfl, rfl, rfl, hC, hU, rfl, hI, hs, ho⟩

/-- C5 (witness): the amended claim at an admin registration with the code
that was sent, on collaborators that all answer without error. -/
theorem C5_admin_registration_succeeds_witness :
    (CreateAdmin env0 w0 adminReq).2.users
        = w0.users ++ [w0.stored (adminRow env0 adminReq "" 9)] ∧
    (CreateAdmin env0 w0 adminReq).1 = .returned (env0.genUUID, w0.nextId, none) :=
  have h := C5_admin_registration_succeeds env0 w0 adminReq (adminRow env0 adminReq "" 9)
    (registerParam env0 "u-5" "A") (openIMHost env0) { ErrCode := 0, ErrMsg := "" }
    (by decide) (by decide)
    (by rw [List.mem_iff_get]; exact ⟨⟨2, by decide⟩, by decide⟩)
    (by rw [List.mem_iff_get]; exact ⟨⟨4, by decide⟩, by decide⟩)
    (by decide) (by decide)
    (by
      have h : (CreateAdmin env0 w0 adminReq).2.since w0
          = [.checkCode "a@x.com" "1234" true,
             .createCommunity { Name := "acme" } 9 none,
             .daoCreate (adminRow env0 adminReq "" 9) none,
             .daoFindByUUID "u-5" (w0.stored (adminRow env0 adminReq "" 9)) none,
             .registerUser (registerParam env0 "u-5" "A") (openIMHost env0)
               { ErrCode := 0, ErrMsg := "" } none] := by decide
      intro u e hm
      rw [h] at hm
      simp at hm
      exact hm.2.2)
  ⟨h.2.2.2.2.2.1, h.2.2.2.2.2.2.2.2.2⟩

/-- C6 (as stated, refuted): a staff registration for which the store accepts
the write and the remote service answers application code 0, but whose
re-read of the row reports an error, returns the numeric id 0 while the store
gave the row the id 5. -/
theorem C6_counterexample :
    Event.daoCreate (staffRow envRereadFails staffReq "") none
      ∈ (CreateStaff envRereadFails w0 staffReq).2.since w0 ∧
    Event.registerUser (registerParam envRereadFails "u-5" "A") (openIMHost envRereadFails)
        { ErrCode := 0, ErrMsg := "" } none
      ∈ (CreateStaff envRereadFails w0 staffReq).2.since w0 ∧
    (CreateStaff envRereadFails w0 staffReq).1 = .returned ("u-5", 0, none) ∧
    (∃ r ∈ (CreateStaff envRereadFails w0 staffReq).2.users,
      r.UserBase.UUID = "u-5" ∧ r.Id = 5) := by
  refine ⟨?_, ?_, by decide, by decide⟩
  · rw [List.mem_iff_get]; exact ⟨⟨0, by decide⟩, by decide⟩
  · rw [List.mem_iff_get]; exact ⟨⟨2, by decide⟩, by decide⟩

/-- C6 (amended): for every CreateStaff request (email e, nickname n,
password p, community id c) for which the store accepts the write and the
remote service answers application code 0, the generated identifier U being
new to the store and the re-read of the row reporting no error: the row
handed to the store has email e, community id c, isAdmin = false and the
identifier U, and it is in the store under the next numeric id when the call
returns; the single remote registration call carries exactly one user
(userID U, nickname n, faceURL ""); and the call returns (U, rowID, nil) with
rowID that row's store-assigned id. -/
theorem C6_staff_registration_succeeds (c : Env) (w : World) (user : RegisterStaffParams)
    (row : SysUser) (p : RegisterUserParams) (host : String) (resp : RegisterUserResp)
    (hcreate : Event.daoCreate row none ∈ (CreateStaff c w user).2.since w)
    (hreg : Event.registerUser p host resp none ∈ (CreateStaff c w user).2.since w)
    (hzero : resp.ErrCode = 0)
    (hfresh : ¬ w.hasUser c.genUUID)
    (hreread : ∀ u e,
      Event.daoFindByUUID c.genUUID u e ∈ (CreateStaff c w user).2.since w → e = none) :
    (∃ avatar, user.UserInfo.Avatar = some avatar ∧ row = staffRow c user avatar) ∧
    row.UserBase.Email = user.UserInfo.Email ∧
    row.CommunityId = user.CommunityId ∧
    row.IsAdmin = false ∧
    row.UserBase.UUID = c.genUUID ∧
    (CreateStaff c w user).2.users = w.users ++ [w.stored row] ∧
    (w.stored row).Id = w.nextId ∧
    (CreateStaff c w user).2.imUsers = w.imUsers ++ [c.genUUID] ∧
    (CreateStaff c w user).2.since w
      = [.daoCreate row none,
         .daoFindByUUID c.genUUID (w.stored row) none,
         .registerUser
           { Secret := c.Config.Secret,
             Users := [{ UserID := c.genUUID, Nickname := user.UserInfo.Nickname,
                         FaceURL := "" }] }
           (openIMHost c) resp none] ∧
    (CreateStaff c w user).1 = .returned (c.genUUID, w.nextId, none) := by
  have hfr : ∀ r ∈ w.users, r.UserBase.UUID ≠ c.genUUID :=
    fun r hr hEq => hfresh ⟨r, hr, hEq⟩
  cases ha : user.UserInfo.Avatar with
  | none =>
    rw [CreateStaff_nil c w user ha, since_of_trace _ w [] (by simp)] at hcreate
    simp at hcreate
  | some a =>
    rcases CreateStaff_paths c w user a ha with ⟨e, hs, -⟩ | ⟨e, hr, hs⟩ | ⟨hr, hs, hU, hI, ho⟩
    · rw [hs] at hcreate
      simp at hcreate
    · rw [hs] at hreg
      simp only [List.mem_cons, List.mem_singleton, reduceCtorEq, false_or,
        Event.registerUser.injEq, List.not_mem_nil, or_false] at hreg
      obtain ⟨-, -, h3, h4⟩ := hreg
      have := (remoteError_some_iff _).mp ⟨e, hr⟩
      rw [← h3, ← h4] at this
      rcases this with h | h
      · exact absurd rfl h
      · exact absurd hzero h
    · rw [hs] at hcreate hreg hreread
      simp only [List.mem_cons, List.mem_singleton, reduceCtorEq, false_or,
        Event.daoCreate.injEq, and_true, List.not_mem_nil, or_false] at hcreate
      simp only [List.mem_cons, List.mem_singleton, reduceCtorEq, false_or,
        Event.registerUser.injEq, List.not_mem_nil, or_false] at hreg
      obtain ⟨-, -, h3, h4⟩ := hreg
      have hf := hreread _ _ (List.mem_cons_of_mem _ (List.mem_cons_self _ _))
      subst hcreate
      have hfound := findByUUID_fresh c w.users (w.stored (staffRow c user a)) c.genUUID hfr
        rfl hf
      rw [hfound] at hs ho
      rw [hf, ← h3, ← h4] at hs
      exact ⟨⟨a, rfl, rfl⟩, rfl, rfl, rfl, rfl, hU, rfl, hI, hs, ho⟩

/-- C6 (witness): the example of the specification: email "a@x.com", nickname
"A", password "p1", community id 7, on collaborators that all answer without
error. -/
theorem C6_staff_registration_succeeds_witness :
    (CreateStaff env0 w0 staffReq).2.users
        = w0.users ++ [w0.stored (staffRow env0 staffReq "")] ∧
    (CreateStaff env0 w0 staffReq).1 = .returned (env0.genUUID, w0.nextId, none) :=
  have h := C6_staff_registration_succeeds env0 w0 staffReq (staffRow env0 staffReq "")
    (registerParam env0 "u-5" "A") (openIMHost env0) { ErrCode := 0, ErrMsg := "" }
    (by rw [List.mem_iff_get]; exact ⟨⟨0, by decide⟩, by decide⟩)
    (by rw [List.mem_iff_get]; exact ⟨⟨2, by decide⟩, by decide⟩)
    (by decide) (by decide)
    (by
      have h : (CreateStaff env0 w0 staffReq).2.since w0
          = [.daoCreate (staffRow env0 staffReq "") none,
             .daoFindByUUID "u-5" (w0.stored (staffRow env0 staffReq "")) none,
             .registerUser (registerParam env0 "u-5" "A") (openIMHost env0)
               { ErrCode := 0, ErrMsg := "" } none] := by decide
      intro u e hm
      rw [h] at hm
      simp at hm
      exact hm.2.2)
  ⟨h.2.2.2.2.2.1, h.2.2.2.2.2.2.2.2.2⟩

/-- C7: in every LoginWithAccount call in which the local session token was
issued and the remote token fetch fails (transport error or non-zero
application code), the call returns an error, the one made of the remote
answer, and a result without partial data: the identifier is empty, neither
the session token nor the remote token is set; and the credential store is
unchanged. -/
theorem C7_login_is_all_or_nothing (c : Env) (w : World) (param : LoginParamsWithAccount)
    (id : String) (cid : Nat) (tok : String) (exp : Int)
    (p : UserTokenParams) (host : String) (resp : UserTokenResp) (err : Error)
    (hissued : Event.generateJwt id cid tok exp none ∈ (LoginWithAccount c w param).2.since w)
    (hfetch : Event.getUserToken p host resp err ∈ (LoginWithAccount c w param).2.since w)
    (hfail : err ≠ none ∨ resp.ErrCode ≠ 0) :
    (∃ e, (LoginWithAccount c w param).1.2 = some e ∧ tokenError (resp, err) = some e) ∧
    (LoginWithAccount c w param).1.1 = UserTokenResponse.zero ∧
    (LoginWithAccount c w param).1.1.UUID = "" ∧
    (LoginWithAccount c w param).1.1.KFToken = none ∧
    (LoginWithAccount c w param).1.1.IMToken = none ∧
    (LoginWithAccount c w param).2.users = w.users ∧
    (LoginWithAccount c w param).2.nextId = w.nextId := by
  have _ := hissued
  have hstore := LoginWithAccount_store c w param
  rcases LoginWithAccount_paths c w param with
    ⟨e, -, -, hs⟩ | ⟨-, -, -, hs⟩ | ⟨e, -, -, -, -, hs⟩ | ⟨e, -, -, -, ht, ho, hs⟩ |
      ⟨-, -, -, ht, -, hs⟩
  · rw [hs] at hfetch; simp at hfetch
  · rw [hs] at hfetch; simp at hfetch
  · rw [hs] at hfetch; simp at hfetch
  · rw [hs] at hfetch
    simp only [List.mem_cons, List.mem_singleton, reduceCtorEq, false_or,
      Event.getUserToken.injEq, List.not_mem_nil, or_false] at hfetch
    obtain ⟨-, -, h3, h4⟩ := hfetch
    rw [ho]
    refine ⟨⟨e, rfl, ?_⟩, rfl, rfl, rfl, rfl, hstore.1, hstore.2.1⟩
    rw [h3, h4]; exact ht
  · rw [hs] at hfetch
    simp only [List.mem_cons, List.mem_singleton, reduceCtorEq, false_or,
      Event.getUserToken.injEq, List.not_mem_nil, or_false] at hfetch
    obtain ⟨-, -, h3, h4⟩ := hfetch
    rw [tokenError_none_iff] at ht
    subst h3 h4
    rcases hfail with h | h
    · exact absurd ht.1 h
    · exact absurd ht.2 h

/-- C7 (witness): a login with the right password whose remote token fetch
answers application code 1001. -/
theorem C7_login_is_all_or_nothing_witness :
    (LoginWithAccount envTokenFails w0 loginReq).1.1 = UserTokenResponse.zero ∧
    (LoginWithAccount envTokenFails w0 loginReq).1.2 = some "no token" ∧
    (LoginWithAccount envTokenFails w0 loginReq).2.users = w0.users :=
  have h := C7_login_is_all_or_nothing envTokenFails w0 loginReq "u-3" 7 "kf" 3600
    { Secret := "s", UserID := "u-3", PlatformID := 5 } (openIMHost envTokenFails)
    { ErrCode := 1001, ErrMsg := "no token", Data := TokenData.zero } none
    (by rw [List.mem_iff_get]; exact ⟨⟨1, by decide⟩, by decide⟩)
    (by rw [List.mem_iff_get]; exact ⟨⟨2, by decide⟩, by decide⟩)
    (Or.inr (by decide))
  ⟨h.2.1, by decide, h.2.2.2.2.2.1⟩

/-- C8: in every LoginWithAccount call whose lookup by email gives an account
and whose password does not compare equal to the stored hash, the call fails
with the error "password is not correct", the lookup is the only collaborator
call made (neither the local token issuer nor the remote token fetch is
invoked), and the returned result carries no token. -/
theorem C8_wrong_password_issues_no_token (c : Env) (w : World)
    (param : LoginParamsWithAccount) (u : SysUser)
    (hfound : Event.daoFindByEmail param.Email u none ∈ (LoginWithAccount c w param).2.since w)
    (hpw : c.comparePassword param.Password u.Password = false) :
    (LoginWithAccount c w param).1 = (UserTokenResponse.zero, some "password is not correct") ∧
    (LoginWithAccount c w param).2.since w = [.daoFindByEmail param.Email u none] ∧
    (∀ id cid tok exp e,
      Event.generateJwt id cid tok exp e ∉ (LoginWithAccount c w param).2.since w) ∧
    (∀ p host resp e,
      Event.getUserToken p host resp e ∉ (LoginWithAccount c w param).2.since w) ∧
    (LoginWithAccount c w param).1.1.KFToken = none ∧
    (LoginWithAccount c w param).1.1.IMToken = none ∧
    u ∈ w.users ∧ u.UserBase.Email = param.Email := by
  rcases LoginWithAccount_paths c w param with
    ⟨e, -, -, hs⟩ | ⟨hf, -, ho, hs⟩ | ⟨e, hf, hp, -, -, hs⟩ | ⟨e, hf, hp, -, -, -, hs⟩ |
      ⟨hf, hp, -, -, -, hs⟩
  · rw [hs] at hfound; simp at hfound
  · rw [hs] at hfound
    simp only [List.mem_singleton, Event.daoFindByEmail.injEq, true_and, and_true] at hfound
    have hok := findByEmail_ok c w.users param.Email hf
    rw [← hfound] at hs hok
    rw [hs, ho]
    refine ⟨rfl, rfl, ?_, ?_, rfl, rfl, hok.1, hok.2⟩
    · intro id cid tok exp e; simp
    · intro p host resp e; simp
  · rw [hs] at hfound
    simp only [List.mem_cons, List.mem_singleton, reduceCtorEq, or_false,
      Event.daoFindByEmail.injEq, true_and, and_true, List.not_mem_nil] at hfound
    rw [← hfound] at hp; rw [hp] at hpw; exact absurd hpw (by decide)
  · rw [hs] at hfound
    simp only [List.mem_cons, List.mem_singleton, reduceCtorEq, or_false,
      Event.daoFindByEmail.injEq, true_and, and_true, List.not_mem_nil] at hfound
    rw [← hfound] at hp; rw [hp] at hpw; exact absurd hpw (by decide)
  · rw [hs] at hfound
    simp only [List.mem_cons, List.mem_singleton, reduceCtorEq, or_false,
      Event.daoFindByEmail.injEq, true_and, and_true, List.not_mem_nil] at hfound
    rw [← hfound] at hp; rw [hp] at hpw; exact absurd hpw (by decide)

/-- C8 (witness): a login of the account "b@x.com" with the password "guess",
where the stored hash is the hash of "p3". -/
theorem C8_wrong_password_issues_no_token_witness :
    (LoginWithAccount env0 w0 loginReqWrongPassword).1
      = (UserTokenResponse.zero, some "password is not correct") ∧
    (LoginWithAccount env0 w0 loginReqWrongPassword).2.since w0
      = [.daoFindByEmail "b@x.com" (w0.users.headD SysUser.zero) none] :=
  have h := C8_wrong_password_issues_no_token env0 w0 loginReqWrongPassword
    (w0.users.headD SysUser.zero)
    (by rw [List.mem_iff_get]; exact ⟨⟨0, by decide⟩, by decide⟩)
    (by decide)
  ⟨h.1, h.2.1⟩

/-- C9 (as stated, refuted): a login with an existing email and a matching
password, whose token issuance and remote token fetch both succeed, returns
no error and a session token with an expiry of 0 and a remote token with an
expiry of -1 when these are the expiries the issuer and the remote service
answer with: the expiries are not both positive. -/
theorem C9_counterexample :
    Event.daoFindByEmail "b@x.com" (w0.users.headD SysUser.zero) none
      ∈ (LoginWithAccount envNoExpiry w0 loginReq).2.since w0 ∧
    envNoExpiry.comparePassword loginReq.Password (w0.users.headD SysUser.zero).Password
      = true ∧
    Event.generateJwt "u-3" 7 "kf" 0 none ∈ (LoginWithAccount envNoExpiry w0 loginReq).2.since w0 ∧
    Event.getUserToken { Secret := "s", UserID := "u-3", PlatformID := 5 }
        (openIMHost envNoExpiry)
        { ErrCode := 0, ErrMsg := "", Data := { Token := "im", ExpireTimeSeconds := -1 } } none
      ∈ (LoginWithAccount envNoExpiry w0 loginReq).2.since w0 ∧
    (LoginWithAccount envNoExpiry w0 loginReq).1
      = ({ UUID := "u-3",
           KFToken := some { Token := "kf", ExpireTimeSeconds := 0 },
           IMToken := some { Token := "im", ExpireTimeSeconds := -1 } }, none) ∧
    ¬ ((0 : Int) < 0 ∧ (0 : Int) < -1) := by
  refine ⟨?_, by decide, ?_, ?_, by decide, by decide⟩
  · rw [List.mem_iff_get]; exact ⟨⟨0, by decide⟩, by decide⟩
  · rw [List.mem_iff_get]; exact ⟨⟨1, by decide⟩, by decide⟩
  · rw [List.mem_iff_get]; exact ⟨⟨2, by decide⟩, by decide⟩

/-- C9 (amended): in every LoginWithAccount call whose lookup by email gives
the record u, whose password matches, and whose token issuance and remote
token fetch both succeed: u is a row of the store with that email; the token
was issued for (u's unique identifier, u's community id); the remote token
was fetched for (that identifier, the configured platform id converted to an
unsigned integer, which is the configured id when that is not negative); the
returned identifier is u's, the session token and expiry are exactly the
issued ones, the remote token and expiry exactly the ones the remote service
returned, and the error is nil. The expiries are passed on as they are: each
is positive exactly when the one issued, or returned, is. -/
theorem C9_login_composes_both_tokens (c : Env) (w : World) (param : LoginParamsWithAccount)
    (u : SysUser) (id : String) (cid : Nat) (tok : String) (exp : Int)
    (p : UserTokenParams) (host : String) (resp : UserTokenResp)
    (hfound : Event.daoFindByEmail param.Email u none ∈ (LoginWithAccount c w param).2.since w)
    (hpw : c.comparePassword param.Password u.Password = true)
    (hissued : Event.generateJwt id cid tok exp none ∈ (LoginWithAccount c w param).2.since w)
    (hfetch : Event.getUserToken p host resp none ∈ (LoginWithAccount c w param).2.since w)
    (hzero : resp.ErrCode = 0) :
    (u ∈ w.users ∧ u.UserBase.Email = param.Email) ∧
    (id = u.UserBase.UUID ∧ cid = u.CommunityId ∧
      c.generateJwtToken u.UserBase.UUID u.CommunityId = (tok, exp, none)) ∧
    (p = { Secret := c.Config.Secret, UserID := u.UserBase.UUID,
           PlatformID := uint c.Config.PlatformID } ∧
      host = openIMHost c ∧ c.getUserToken p host = (resp, none) ∧
      (0 ≤ c.Config.PlatformID → c.Config.PlatformID < 2 ^ 64 →
        (p.PlatformID : Int) = c.Config.PlatformID)) ∧
    (LoginWithAccount c w param).1
      = ({ UUID := u.UserBase.UUID,
           KFToken := some { Token := tok, ExpireTimeSeconds := exp },
           IMToken := some { Token := resp.Data.Token,
                             ExpireTimeSeconds := resp.Data.ExpireTimeSeconds } }, none) ∧
    (∀ kf im, (LoginWithAccount c w param).1.1.KFToken = some kf →
      (LoginWithAccount c w param).1.1.IMToken = some im →
      ((0 < kf.ExpireTimeSeconds ↔ 0 < exp) ∧
       (0 < im.ExpireTimeSeconds ↔ 0 < resp.Data.ExpireTimeSeconds))) := by
  have _ := hpw
  have _ := hzero
  rcases LoginWithAccount_paths c w param with
    ⟨e, -, -, hs⟩ | ⟨-, -, -, hs⟩ | ⟨e, -, -, -, -, hs⟩ | ⟨e, -, -, -, ht, -, hs⟩ |
      ⟨hf, -, hj, -, ho, hs⟩
  · rw [hs] at hfetch; simp at hfetch
  · rw [hs] at hfetch; simp at hfetch
  · rw [hs] at hfetch; simp at hfetch
  · rw [hs] at hfetch
    simp only [List.mem_cons, List.mem_singleton, reduceCtorEq, false_or,
      Event.getUserToken.injEq, List.not_mem_nil, or_false] at hfetch
    obtain ⟨-, -, h3, h4⟩ := hfetch
    have := (tokenError_some_iff _).mp ⟨e, ht⟩
    rw [← h3, ← h4] at this
    rcases this with h | h
    · exact absurd rfl h
    · exact absurd hzero h
  · rw [hs] at hfound hissued hfetch
    simp only [List.mem_cons, List.mem_singleton, reduceCtorEq, or_false,
      Event.daoFindByEmail.injEq, true_and, and_true, List.not_mem_nil] at hfound
    simp only [List.mem_cons, List.mem_singleton, reduceCtorEq, false_or, or_false,
      Event.generateJwt.injEq, List.not_mem_nil] at hissued
    simp only [List.mem_cons, List.mem_singleton, reduceCtorEq, false_or,
      Event.getUserToken.injEq, List.not_mem_nil, or_false] at hfetch
    have hok := findByEmail_ok c w.users param.Email hf
    rw [← hfound] at hok hissued hfetch ho hj
    obtain ⟨h1, h2, h3, h4, -⟩ := hissued
    obtain ⟨g1, g2, g3, g4⟩ := hfetch
    have hjwt : c.generateJwtToken u.UserBase.UUID u.CommunityId = (tok, exp, none) := by
      rw [h3, h4, ← hj]
    have htokn : c.getUserToken p host = (resp, none) := by
      rw [g1, g2, g3, g4]
    refine ⟨hok, ⟨h1, h2, hjwt⟩, ⟨g1, g2, htokn, ?_⟩, ?_, ?_⟩
    · intro h0 hlt
      rw [g1]
      exact uint_of_nonneg _ h0 hlt
    · rw [ho, ← h3, ← h4, ← g3]
    · intro kf im hk hi
      rw [ho] at hk hi
      simp only [Option.some.injEq] at hk hi
      rw [← hk, ← hi, ← h4, ← g3]
      exact ⟨Iff.rfl, Iff.rfl⟩

/-- C9 (witness): a login of the account "b@x.com" with its password, on
collaborators that all answer without error. -/
theorem C9_login_composes_both_tokens_witness :
    (LoginWithAccount env0 w0 loginReq).1
      = ({ UUID := "u-3",
           KFToken := some { Token := "kf", ExpireTimeSeconds := 3600 },
           IMToken := some { Token := "im", ExpireTimeSeconds := 7200 } }, none) :=
  (C9_login_composes_both_tokens env0 w0 loginReq (w0.users.headD SysUser.zero)
    "u-3" 7 "kf" 3600 { Secret := "s", UserID := "u-3", PlatformID := 5 } (openIMHost env0)
    { ErrCode := 0, ErrMsg := "", Data := { Token := "im", ExpireTimeSeconds := 7200 } }
    (by rw [List.mem_iff_get]; exact ⟨⟨0, by decide⟩, by decide⟩)
    (by decide)
    (by rw [List.mem_iff_get]; exact ⟨⟨1, by decide⟩, by decide⟩)
    (by rw [List.mem_iff_get]; exact ⟨⟨2, by decide⟩, by decide⟩)
    (by decide)).2.2.2.1

/-- C10 (as stated, refuted): in a staff registration whose re-read of the
row reports the error "db down" while every other collaborator answers
without error, the call returns a nil error: the error of the re-read is
swallowed too. -/
theorem C10_counterexample :
    Event.daoFindByUUID "u-5" SysUser.zero (some "db down")
      ∈ (CreateStaff envRereadFails w0 staffReq).2.since w0 ∧
    (Event.daoFindByUUID "u-5" SysUser.zero (some "db down")).failed ∧
    (CreateStaff envRereadFails w0 staffReq).1 = .returned ("u-5", 0, none) := by
  refine ⟨?_, by decide, by decide⟩
  rw [List.mem_iff_get]; exact ⟨⟨1, by decide⟩, by decide⟩

/-- C10 (amended): in CreateAdmin, CreateStaff and LoginWithAccount every
error reported by the verification check, the community creation, the store
create, the remote registration, the store lookup by email, the token
issuance or the remote token fetch makes the operation return a non-nil
error to its caller. The errors of the re-read by identifier and of the
compensating delete are discarded: a registration in which no other call
reports an error returns a nil error (or panics on a nil avatar). -/
theorem C10_errors_are_returned (c : Env) (w : World) :
    (∀ req ev, ev ∈ (Register c w req).2.since w → ev.failed → ¬ ev.discarded →
      ∃ id n e, (Register c w req).1 = .returned (id, n, some e)) ∧
    (∀ param ev, ev ∈ (LoginWithAccount c w param).2.since w → ev.failed →
      ∃ e, (LoginWithAccount c w param).1.2 = some e) ∧
    (∀ req, (∀ ev ∈ (Register c w req).2.since w, ev.failed → ev.discarded) →
      (Register c w req).1 = .panicked ∨
      ∃ id n, (Register c w req).1 = .returned (id, n, none)) := by
  refine ⟨?_, ?_, ?_⟩
  · intro req ev hev hfail hnd
    obtain ⟨pre, hop, hpath⟩ := Register_paths c w req
    rcases hpath with ⟨hs, -, -, -, hout⟩ | ⟨row1, e, -, -, -, -, -, -, ho⟩ |
        ⟨row1, nick, e, -, -, -, -, -, -, -, ho⟩ | ⟨row1, nick, hnf, -, hr, hs, -⟩
    · rcases hout with ⟨e, ho, -⟩ | ⟨-, hnf⟩
      · exact ⟨_, _, e, ho⟩
      · rw [hs] at hev
        exact absurd hfail (hnf ev hev)
    · exact ⟨_, _, e, ho⟩
    · exact ⟨_, _, e, ho⟩
    · rw [hs] at hev
      rw [remoteError_none_iff] at hr
      simp only [List.mem_append, List.mem_cons, List.mem_singleton, List.not_mem_nil,
        or_false] at hev
      rcases hev with h | h | h | h
      · exact absurd hfail (hnf ev h)
      · subst h; simp [Event.failed] at hfail
      · subst h; simp [Event.discarded] at hnd
      · subst h
        simp only [Event.failed] at hfail
        rcases hfail with h | h
        · exact absurd hr.1 h
        · exact absurd hr.2 h
  · intro param ev hev hfail
    rcases LoginWithAccount_paths c w param with
      ⟨e, -, ho, -⟩ | ⟨-, -, ho, -⟩ | ⟨e, -, -, -, ho, -⟩ | ⟨e, -, -, -, -, ho, -⟩ |
        ⟨-, -, -, ht, -, hs⟩
    · exact ⟨e, by rw [ho]⟩
    · exact ⟨_, by rw [ho]⟩
    · exact ⟨e, by rw [ho]⟩
    · exact ⟨e, by rw [ho]⟩
    · rw [hs] at hev
      rw [tokenError_none_iff] at ht
      simp only [List.mem_cons, List.mem_singleton, List.not_mem_nil, or_false] at hev
      rcases hev with h | h | h
      · subst h; simp [Event.failed] at hfail
      · subst h; simp [Event.failed] at hfail
      · subst h
        simp only [Event.failed] at hfail
        rcases hfail with h | h
        · exact absurd ht.1 h
        · exact absurd ht.2 h
  · intro req hall
    obtain ⟨pre, hop, hpath⟩ := Register_paths c w req
    rcases hpath with ⟨hs, -, -, -, hout⟩ | ⟨row1, e, -, -, hs, -⟩ |
        ⟨row1, nick, e, -, -, hr, hs, -⟩ | ⟨row1, nick, -, -, -, -, -, -, -, ho⟩
    · rcases hout with ⟨e, -, ev, hev, hfail⟩ | ⟨ho, -⟩
      · have hd := hall ev (by rw [hs]; exact hev) hfail
        have ho := hop ev hev
        cases ev <;> simp [Event.discarded, Event.opening] at hd ho
      · exact Or.inl ho
    · have hd := hall (.daoCreate row1 (some e)) (by rw [hs]; simp) (by simp [Event.failed])
      simp [Event.discarded] at hd
    · have hd := hall
        (.registerUser (registerParam c c.genUUID nick) (openIMHost c)
          (c.registerUser (registerParam c c.genUUID nick) (openIMHost c)).1
          (c.registerUser (registerParam c c.genUUID nick) (openIMHost c)).2)
        (by rw [hs]; simp)
        ((remoteError_some_iff _).mp ⟨e, hr⟩)
      simp [Event.discarded] at hd
    · exact Or.inr ⟨_, _, ho⟩

/-- C10 (witness): a staff registration whose remote registration answers
application code 500 returns a non-nil error, and one in which only the
re-read reports an error returns a nil error. -/
theorem C10_errors_are_returned_witness :
    (∃ id n e, (Register envRemoteFails w0 (.staff staffReq)).1 = .returned (id, n, some e)) ∧
    ((Register envRereadFails w0 (.staff staffReq)).1 = .panicked ∨
      ∃ id n, (Register envRereadFails w0 (.staff staffReq)).1 = .returned (id, n, none)) :=
  ⟨(C10_errors_are_returned envRemoteFails w0).1 (.staff staffReq)
      (.registerUser (registerParam envRemoteFails "u-5" "A") (openIMHost envRemoteFails)
        { ErrCode := 500, ErrMsg := "remote says no" } none)
      (by rw [List.mem_iff_get]; exact ⟨⟨2, by decide⟩, by decide⟩)
      (by decide) (by decide),
   (C10_errors_are_returned envRereadFails w0).2.2 (.staff staffReq)
      (by
        have h : (Register envRereadFails w0 (.staff staffReq)).2.since w0
            = [.daoCreate (staffRow envRereadFails staffReq "") none,
               .daoFindByUUID "u-5" SysUser.zero (some "db down"),
               .registerUser (registerParam envRereadFails "u-5" "A")
                 (openIMHost envRereadFails) { ErrCode := 0, ErrMsg := "" } none] := by decide
        rw [h]
        decide)⟩
end OpenKF
